import Mathlib

/-!
Verification development for the inav configuration / MSP-box slice
(`src/main/fc/config.c` and `src/main/fc/fc_msp_box.c`).

The C code is shallowly embedded: each C function of the slice becomes a
Lean function over explicit state records.  Machine integers are modelled
as `Nat` (the fields involved are unsigned and no claim depends on wrap
behaviour) except the navigation altitude thresholds, where the C code
mixes unsigned storage with promoted signed arithmetic; those are
modelled as `Int`, matching the arithmetic the source performs.

Enumeration constants (`boxId_e`, permanent wire ids, PWM protocol and
servo protocol enumerations, `MAX_PROFILE_COUNT`, feature bits) are
declared in headers that are not part of the slice; their values are
modelled from the spec and the structure of the slice (only their
distinctness and ordering matter to the theorems below).
-/

set_option maxRecDepth 10000

namespace Inav

/-! ### Box identifiers (`boxId_e`)

Modelled from the spec: the `boxId_e` enumeration lives in a header
outside the slice; ids are assigned in the order of the static `boxes`
table, which is the enumeration order.  Only distinctness matters. -/
def BOXARM : Nat := 0
def BOXANGLE : Nat := 1
def BOXHORIZON : Nat := 2
def BOXNAVALTHOLD : Nat := 3
def BOXHEADINGHOLD : Nat := 4
def BOXHEADFREE : Nat := 5
def BOXHEADADJ : Nat := 6
def BOXCAMSTAB : Nat := 7
def BOXNAVRTH : Nat := 8
def BOXNAVPOSHOLD : Nat := 9
def BOXMANUAL : Nat := 10
def BOXBEEPERON : Nat := 11
def BOXLEDLOW : Nat := 12
def BOXLIGHTS : Nat := 13
def BOXOSD : Nat := 14
def BOXTELEMETRY : Nat := 15
def BOXAUTOTUNE : Nat := 16
def BOXBLACKBOX : Nat := 17
def BOXFAILSAFE : Nat := 18
def BOXNAVWP : Nat := 19
def BOXAIRMODE : Nat := 20
def BOXHOMERESET : Nat := 21
def BOXGCSNAV : Nat := 22
def BOXFPVANGLEMIX : Nat := 23
def BOXSURFACE : Nat := 24
def BOXFLAPERON : Nat := 25
def BOXTURNASSIST : Nat := 26
def BOXNAVLAUNCH : Nat := 27
def BOXAUTOTRIM : Nat := 28
def BOXKILLSWITCH : Nat := 29
def BOXCAMERA1 : Nat := 30
def BOXCAMERA2 : Nat := 31
def BOXCAMERA3 : Nat := 32
def BOXOSDALT1 : Nat := 33
def BOXOSDALT2 : Nat := 34
def BOXOSDALT3 : Nat := 35
def BOXNAVCOURSEHOLD : Nat := 36
def BOXBRAKING : Nat := 37
def BOXUSER1 : Nat := 38
def BOXUSER2 : Nat := 39
def BOXLOITERDIRCHN : Nat := 40
def BOXMSPRCOVERRIDE : Nat := 41
def BOXPREARM : Nat := 42
def BOXTURTLE : Nat := 43
def BOXNAVCRUISE : Nat := 44
def BOXAUTOLEVEL : Nat := 45
def BOXPLANWPMISSION : Nat := 46
def BOXSOARING : Nat := 47
def CHECKBOX_ITEM_COUNT : Nat := 48
/-- Permanent wire ids of the two USER boxes (`BOX_PERMANENT_ID_USER1/2`),
declared outside the slice.  Modelled from the spec: permanent ids are
append-only stable values; these fill the 47/48 gap of the table. -/
def BOX_PERMANENT_ID_USER1 : Nat := 47
def BOX_PERMANENT_ID_USER2 : Nat := 48
/-- `box_t`: an immutable box descriptor.  A C `NULL` name is `none`. -/
structure box_t where
  boxId : Nat
  boxName : Option String
  permanentId : Nat
deriving DecidableEq, Repr
/-- The static `boxes` table of `fc_msp_box.c`, including the
terminating sentinel entry `{ CHECKBOX_ITEM_COUNT, NULL, 0xFF }`. -/
def boxes : List box_t := [
  ⟨BOXARM, some "ARM", 0⟩,
  ⟨BOXANGLE, some "ANGLE", 1⟩,
  ⟨BOXHORIZON, some "HORIZON", 2⟩,
  ⟨BOXNAVALTHOLD, some "NAV ALTHOLD", 3⟩,
  ⟨BOXHEADINGHOLD, some "HEADING HOLD", 5⟩,
  ⟨BOXHEADFREE, some "HEADFREE", 6⟩,
  ⟨BOXHEADADJ, some "HEADADJ", 7⟩,
  ⟨BOXCAMSTAB, some "CAMSTAB", 8⟩,
  ⟨BOXNAVRTH, some "NAV RTH", 10⟩,
  ⟨BOXNAVPOSHOLD, some "NAV POSHOLD", 11⟩,
  ⟨BOXMANUAL, some "MANUAL", 12⟩,
  ⟨BOXBEEPERON, some "BEEPER", 13⟩,
  ⟨BOXLEDLOW, some "LEDS OFF", 15⟩,
  ⟨BOXLIGHTS, some "LIGHTS", 16⟩,
  ⟨BOXOSD, some "OSD OFF", 19⟩,
  ⟨BOXTELEMETRY, some "TELEMETRY", 20⟩,
  ⟨BOXAUTOTUNE, some "AUTO TUNE", 21⟩,
  ⟨BOXBLACKBOX, some "BLACKBOX", 26⟩,
  ⟨BOXFAILSAFE, some "FAILSAFE", 27⟩,
  ⟨BOXNAVWP, some "NAV WP", 28⟩,
  ⟨BOXAIRMODE, some "AIR MODE", 29⟩,
  ⟨BOXHOMERESET, some "HOME RESET", 30⟩,
  ⟨BOXGCSNAV, some "GCS NAV", 31⟩,
  ⟨BOXFPVANGLEMIX, some "FPV ANGLE MIX", 32⟩,
  ⟨BOXSURFACE, some "SURFACE", 33⟩,
  ⟨BOXFLAPERON, some "FLAPERON", 34⟩,
  ⟨BOXTURNASSIST, some "TURN ASSIST", 35⟩,
  ⟨BOXNAVLAUNCH, some "NAV LAUNCH", 36⟩,
  ⟨BOXAUTOTRIM, some "SERVO AUTOTRIM", 37⟩,
  ⟨BOXKILLSWITCH, some "KILLSWITCH", 38⟩,
  ⟨BOXCAMERA1, some "CAMERA CONTROL 1", 39⟩,
  ⟨BOXCAMERA2, some "CAMERA CONTROL 2", 40⟩,
  ⟨BOXCAMERA3, some "CAMERA CONTROL 3", 41⟩,
  ⟨BOXOSDALT1, some "OSD ALT 1", 42⟩,
  ⟨BOXOSDALT2, some "OSD ALT 2", 43⟩,
  ⟨BOXOSDALT3, some "OSD ALT 3", 44⟩,
  ⟨BOXNAVCOURSEHOLD, some "NAV COURSE HOLD", 45⟩,
  ⟨BOXBRAKING, some "MC BRAKING", 46⟩,
  ⟨BOXUSER1, some "USER1", BOX_PERMANENT_ID_USER1⟩,
  ⟨BOXUSER2, some "USER2", BOX_PERMANENT_ID_USER2⟩,
  ⟨BOXLOITERDIRCHN, some "LOITER CHANGE", 49⟩,
  ⟨BOXMSPRCOVERRIDE, some "MSP RC OVERRIDE", 50⟩,
  ⟨BOXPREARM, some "PREARM", 51⟩,
  ⟨BOXTURTLE, some "TURTLE", 52⟩,
  ⟨BOXNAVCRUISE, some "NAV CRUISE", 53⟩,
  ⟨BOXAUTOLEVEL, some "AUTO LEVEL", 54⟩,
  ⟨BOXPLANWPMISSION, some "WP PLANNER", 55⟩,
  ⟨BOXSOARING, some "SOARING", 56⟩,
  ⟨CHECKBOX_ITEM_COUNT, none, 0xFF⟩
]
/-- `findBoxByActiveBoxId`: linear scan over all
`sizeof(boxes)/sizeof(box_t)` entries (the sentinel included),
returning the first entry whose `boxId` matches, else `NULL`. -/
def findBoxByActiveBoxId (activeBoxId : Nat) : Option box_t :=
  boxes.find? (fun candidate => candidate.boxId == activeBoxId)
/-- `findBoxByPermanentId`: linear scan over all entries (the sentinel
included), returning the first entry whose `permanentId` matches,
else `NULL`. -/
def findBoxByPermanentId (permenantId : Nat) : Option box_t :=
  boxes.find? (fun candidate => candidate.permanentId == permenantId)
/-! ### Stream buffer and the two box serializers -/
/-- `sbuf_t`: modelled as the bytes already written plus the remaining
capacity (`sbufBytesRemaining`). -/
structure sbuf_t where
  data : List Char
  remaining : Nat
deriving DecidableEq, Repr
def sbufBytesRemaining (s : sbuf_t) : Nat := s.remaining
def sbufWriteData (s : sbuf_t) (bytes : List Char) : sbuf_t :=
  ⟨s.data ++ bytes, s.remaining - bytes.length⟩
def sbufWriteU8 (s : sbuf_t) (c : Char) : sbuf_t :=
  ⟨s.data ++ [c], s.remaining - 1⟩
def BOX_SUFFIX : Char := ';'
def BOX_SUFFIX_LEN : Nat := 1
/-- First loop of `serializeBoxNamesReply`: the total length of the
reply, `strlen(boxName) + BOX_SUFFIX_LEN` per active id found in the
table.  (The slice only ever calls this on real active ids, whose
`boxName` is non-NULL; a NULL name contributes `strlen` 0 here.) -/
def boxNamesReplyLength (activeBoxIds : List Nat) : Nat :=
  activeBoxIds.foldl (fun replyLengthTotal i =>
    match findBoxByActiveBoxId i with
    | some box => replyLengthTotal + (box.boxName.getD "").length + BOX_SUFFIX_LEN
    | none => replyLengthTotal) 0
/-- The bytes a single active id contributes to the name reply: the
box name followed by the `';'` suffix when the id is found, nothing
otherwise. -/
def boxNameChunk (id : Nat) : List Char :=
  match findBoxByActiveBoxId id with
  | some box => (box.boxName.getD "").data ++ [BOX_SUFFIX]
  | none => []
/-- The full semicolon-suffixed name list for an active-box list. -/
def boxNamesReply (activeBoxIds : List Nat) : List Char :=
  (activeBoxIds.map boxNameChunk).flatten
/-- Second loop of `serializeBoxNamesReply`: write each found box's
name (`sbufWriteData`) followed by the suffix (`sbufWriteU8`). -/
def writeBoxNamesLoop : List Nat → sbuf_t → sbuf_t
  | [], dst => dst
  | id :: rest, dst =>
    match findBoxByActiveBoxId id with
    | some box =>
        writeBoxNamesLoop rest
          (sbufWriteU8 (sbufWriteData dst (box.boxName.getD "").data) BOX_SUFFIX)
    | none => writeBoxNamesLoop rest dst
/-- `serializeBoxNamesReply`: compute the total reply length, fail
without writing when the destination cannot hold it, otherwise write
the whole reply. -/
def serializeBoxNamesReply (activeBoxIds : List Nat) (dst : sbuf_t) :
    Bool × sbuf_t :=
  let replyLengthTotal := boxNamesReplyLength activeBoxIds
  -- Check if we have enough space to send a reply
  if sbufBytesRemaining dst < replyLengthTotal then (false, dst)
  else (true, writeBoxNamesLoop activeBoxIds dst)
/-- `serializeBoxReply`: one permanent-id byte per active id found in
the table (`if (!box) continue;`). -/
def serializeBoxReply : List Nat → List Nat
  | [] => []
  | id :: rest =>
    match findBoxByActiveBoxId id with
    | none => serializeBoxReply rest
    | some box => box.permanentId :: serializeBoxReply rest
/-! ### Active-capability resolver -/
/-- Compile-time option switches of the slice, one per preprocessor
conditional the two source files test. -/
structure BuildConfig where
  useGps : Bool
  useMrBrakingMode : Bool
  useAutotuneFixedWing : Bool
  useLights : Bool
  useLedStrip : Bool
  useTelemetry : Bool
  useBlackbox : Bool
  useRcdevice : Bool
  usePiniobox : Bool
  useOsd : Bool
  osdLayoutCount : Nat
  useRxMspOverride : Bool
  useDshot : Bool
  useServoSbus : Bool
  useMag : Bool
  brushedMotors : Bool
  useSoftserial : Bool
  useFlmFlaperon : Bool
  rxChannelsTaer : Bool
  enableBlackboxOnSpiflash : Bool
deriving DecidableEq, Repr
/-- The runtime context `initActiveBoxIds` reads: installed sensors,
vehicle-type state flags, enabled features, and the handful of config /
hardware predicates it consults.  All are pure reads. -/
structure BoxContext where
  sensorAcc : Bool
  sensorBaro : Bool
  sensorMag : Bool
  sensorRangefinder : Bool
  sensorOpflow : Bool
  stateAltitudeControl : Bool
  stateMultirotor : Bool
  stateAirplane : Bool
  stateRover : Bool
  stateBoat : Bool
  stateFlaperonAvailable : Bool
  featAirmode : Bool
  featGps : Bool
  featFwLaunch : Bool
  featFwAutotrim : Bool
  featLedStrip : Bool
  featTelemetry : Bool
  featBlackbox : Bool
  useGpsNoBaro : Bool
  allowDeadReckoning : Bool
  hwCompassPresent : Bool
  platformMultirotor : Bool
  telemetrySwitch : Bool
  motorDshot : Bool
deriving DecidableEq, Repr
/-- `initActiveBoxIds`: rebuilds the active-box list from scratch; each
`ADD_ACTIVE_BOX` appears in source order, preprocessor conditionals
become `BuildConfig` tests. -/
def initActiveBoxIds (b : BuildConfig) (c : BoxContext) : List Nat :=
  let navReadyAltControl :=
    if b.useGps then
      c.sensorBaro || (c.featGps && (c.stateAirplane || c.useGpsNoBaro))
    else c.sensorBaro
  let navFlowDeadReckoning := c.sensorOpflow && c.sensorAcc && c.allowDeadReckoning
  let navReadyPosControl :=
    if c.stateMultirotor then
      (c.sensorAcc && c.featGps) && c.hwCompassPresent
    else c.sensorAcc && c.featGps
  [BOXARM, BOXPREARM]
  ++ (if c.sensorAcc && c.stateAltitudeControl then
        [BOXANGLE, BOXHORIZON, BOXTURNASSIST] else [])
  ++ (if !c.featAirmode && c.stateAltitudeControl then [BOXAIRMODE] else [])
  ++ [BOXHEADINGHOLD, BOXCAMSTAB]
  ++ (if c.stateMultirotor then
        (if c.sensorAcc || c.sensorMag then [BOXHEADFREE, BOXHEADADJ] else [])
        ++ (if c.sensorBaro && c.sensorRangefinder && c.sensorOpflow then
              [BOXSURFACE] else [])
        ++ [BOXFPVANGLEMIX]
      else [])
  ++ (if b.useGps then
        (if c.stateAltitudeControl && navReadyAltControl &&
            (navReadyPosControl || navFlowDeadReckoning) then
           [BOXNAVPOSHOLD] ++ (if c.stateAirplane then [BOXLOITERDIRCHN] else [])
         else [])
        ++ (if navReadyPosControl then
              (if !c.stateAltitudeControl ||
                  (c.stateAltitudeControl && navReadyAltControl) then
                 [BOXNAVRTH, BOXNAVWP, BOXHOMERESET, BOXGCSNAV, BOXPLANWPMISSION]
               else [])
              ++ (if c.stateAirplane then
                    [BOXNAVCRUISE, BOXNAVCOURSEHOLD, BOXSOARING] else [])
            else [])
        ++ (if b.useMrBrakingMode && c.platformMultirotor then [BOXBRAKING] else [])
      else [])
  ++ (if c.stateAltitudeControl && navReadyAltControl then [BOXNAVALTHOLD] else [])
  ++ (if c.stateAirplane || c.stateRover || c.stateBoat then [BOXMANUAL] else [])
  ++ (if c.stateAirplane then
        (if !c.featFwLaunch then [BOXNAVLAUNCH] else [])
        ++ (if !c.featFwAutotrim then [BOXAUTOTRIM] else [])
        ++ (if b.useAutotuneFixedWing then [BOXAUTOTUNE] else [])
        ++ (if c.sensorBaro then [BOXAUTOLEVEL] else [])
      else [])
  ++ (if c.stateFlaperonAvailable then [BOXFLAPERON] else [])
  ++ [BOXBEEPERON]
  ++ (if b.useLights then [BOXLIGHTS] else [])
  ++ (if b.useLedStrip && c.featLedStrip then [BOXLEDLOW] else [])
  ++ [BOXOSD]
  ++ (if b.useTelemetry && c.featTelemetry && c.telemetrySwitch then
        [BOXTELEMETRY] else [])
  ++ (if b.useBlackbox && c.featBlackbox then [BOXBLACKBOX] else [])
  ++ [BOXKILLSWITCH, BOXFAILSAFE]
  ++ (if b.useRcdevice then [BOXCAMERA1, BOXCAMERA2, BOXCAMERA3] else [])
  ++ (if b.usePiniobox then [BOXUSER1, BOXUSER2] else [])
  ++ (if b.useOsd && b.osdLayoutCount > 0 then
        [BOXOSDALT1]
        ++ (if b.osdLayoutCount > 1 then
              [BOXOSDALT2] ++ (if b.osdLayoutCount > 2 then [BOXOSDALT3] else [])
            else [])
      else [])
  ++ (if b.useRxMspOverride then [BOXMSPRCOVERRIDE] else [])
  ++ (if b.useDshot && (c.stateMultirotor && c.motorDshot) then [BOXTURTLE] else [])
/-- The `ADD_ACTIVE_BOX` call sites of `initActiveBoxIds` in source
order, all conditions taken true: every run produces a sublist of this
list. -/
def boxAddOrder : List Nat :=
  [BOXARM, BOXPREARM]
  ++ [BOXANGLE, BOXHORIZON, BOXTURNASSIST]
  ++ [BOXAIRMODE]
  ++ [BOXHEADINGHOLD, BOXCAMSTAB]
  ++ ([BOXHEADFREE, BOXHEADADJ] ++ [BOXSURFACE] ++ [BOXFPVANGLEMIX])
  ++ (([BOXNAVPOSHOLD] ++ [BOXLOITERDIRCHN])
      ++ ([BOXNAVRTH, BOXNAVWP, BOXHOMERESET, BOXGCSNAV, BOXPLANWPMISSION]
          ++ [BOXNAVCRUISE, BOXNAVCOURSEHOLD, BOXSOARING])
      ++ [BOXBRAKING])
  ++ [BOXNAVALTHOLD]
  ++ [BOXMANUAL]
  ++ ([BOXNAVLAUNCH] ++ [BOXAUTOTRIM] ++ [BOXAUTOTUNE] ++ [BOXAUTOLEVEL])
  ++ [BOXFLAPERON]
  ++ [BOXBEEPERON]
  ++ [BOXLIGHTS]
  ++ [BOXLEDLOW]
  ++ [BOXOSD]
  ++ [BOXTELEMETRY]
  ++ [BOXBLACKBOX]
  ++ [BOXKILLSWITCH, BOXFAILSAFE]
  ++ [BOXCAMERA1, BOXCAMERA2, BOXCAMERA3]
  ++ [BOXUSER1, BOXUSER2]
  ++ ([BOXOSDALT1] ++ ([BOXOSDALT2] ++ [BOXOSDALT3]))
  ++ [BOXMSPRCOVERRIDE]
  ++ [BOXTURTLE]
set_option maxHeartbeats 1000000 in
/-- The scenario context of C8: no sensor present, vehicle type
multirotor (multirotor platforms have the altitude-control state set),
no feature enabled, no GPS-related config predicates. -/
def noSensorsMultirotorContext : BoxContext where
  sensorAcc := false
  sensorBaro := false
  sensorMag := false
  sensorRangefinder := false
  sensorOpflow := false
  stateAltitudeControl := true
  stateMultirotor := true
  stateAirplane := false
  stateRover := false
  stateBoat := false
  stateFlaperonAvailable := false
  featAirmode := false
  featGps := false
  featFwLaunch := false
  featFwAutotrim := false
  featLedStrip := false
  featTelemetry := false
  featBlackbox := false
  useGpsNoBaro := false
  allowDeadReckoning := false
  hwCompassPresent := false
  platformMultirotor := true
  telemetrySwitch := false
  motorDshot := false
/-! ### Mode-flag serializer -/
/-- Live runtime state read by `packBoxModeFlags`: flight-mode flags,
`IS_RC_MODE_ACTIVE`, the ARMED arming flag and the navigation
terrain-following predicate. -/
structure RuntimeState where
  flightModeAngle : Bool
  flightModeHorizon : Bool
  flightModeHeading : Bool
  flightModeHeadfree : Bool
  flightModeManual : Bool
  flightModeFailsafe : Bool
  flightModeNavAlthold : Bool
  flightModeNavPoshold : Bool
  flightModeNavCourseHold : Bool
  flightModeNavRth : Bool
  flightModeNavWp : Bool
  flightModeTurnAssistant : Bool
  flightModeNavLaunch : Bool
  flightModeAutoTune : Bool
  flightModeFlaperon : Bool
  armed : Bool
  rcModeActive : Nat → Bool
  navTerrainFollowing : Bool
/-- The `activeBoxes[]` table that the `CHECK_ACTIVE_BOX` lines of
`packBoxModeFlags` fill, as a predicate on box ids.  Each line sets one
distinct id; ids without a line — notably BOXPREARM and BOXTURTLE —
are never set. -/
def checkActiveBoxes (b : BuildConfig) (rt : RuntimeState) (boxId : Nat) : Bool :=
  if boxId = BOXANGLE then rt.flightModeAngle
  else if boxId = BOXHORIZON then rt.flightModeHorizon
  else if boxId = BOXHEADINGHOLD then rt.flightModeHeading
  else if boxId = BOXHEADFREE then rt.flightModeHeadfree
  else if boxId = BOXHEADADJ then rt.rcModeActive BOXHEADADJ
  else if boxId = BOXCAMSTAB then rt.rcModeActive BOXCAMSTAB
  else if boxId = BOXFPVANGLEMIX then rt.rcModeActive BOXFPVANGLEMIX
  else if boxId = BOXMANUAL then rt.flightModeManual
  else if boxId = BOXBEEPERON then rt.rcModeActive BOXBEEPERON
  else if boxId = BOXLEDLOW then rt.rcModeActive BOXLEDLOW
  else if boxId = BOXLIGHTS then rt.rcModeActive BOXLIGHTS
  else if boxId = BOXOSD then rt.rcModeActive BOXOSD
  else if boxId = BOXTELEMETRY then rt.rcModeActive BOXTELEMETRY
  else if boxId = BOXARM then rt.armed
  else if boxId = BOXBLACKBOX then rt.rcModeActive BOXBLACKBOX
  else if boxId = BOXFAILSAFE then rt.flightModeFailsafe
  else if boxId = BOXNAVALTHOLD then rt.flightModeNavAlthold
  else if boxId = BOXNAVPOSHOLD then rt.flightModeNavPoshold
  else if boxId = BOXNAVCOURSEHOLD then rt.flightModeNavCourseHold
  else if boxId = BOXNAVCRUISE then rt.flightModeNavCourseHold && rt.flightModeNavAlthold
  else if boxId = BOXNAVRTH then rt.flightModeNavRth
  else if boxId = BOXNAVWP then rt.flightModeNavWp
  else if boxId = BOXAIRMODE then rt.rcModeActive BOXAIRMODE
  else if boxId = BOXGCSNAV then rt.rcModeActive BOXGCSNAV
  else if boxId = BOXFLAPERON then b.useFlmFlaperon && rt.flightModeFlaperon
  else if boxId = BOXTURNASSIST then rt.flightModeTurnAssistant
  else if boxId = BOXNAVLAUNCH then rt.flightModeNavLaunch
  else if boxId = BOXAUTOTUNE then rt.flightModeAutoTune
  else if boxId = BOXAUTOTRIM then rt.rcModeActive BOXAUTOTRIM
  else if boxId = BOXKILLSWITCH then rt.rcModeActive BOXKILLSWITCH
  else if boxId = BOXHOMERESET then rt.rcModeActive BOXHOMERESET
  else if boxId = BOXCAMERA1 then rt.rcModeActive BOXCAMERA1
  else if boxId = BOXCAMERA2 then rt.rcModeActive BOXCAMERA2
  else if boxId = BOXCAMERA3 then rt.rcModeActive BOXCAMERA3
  else if boxId = BOXOSDALT1 then rt.rcModeActive BOXOSDALT1
  else if boxId = BOXOSDALT2 then rt.rcModeActive BOXOSDALT2
  else if boxId = BOXOSDALT3 then rt.rcModeActive BOXOSDALT3
  else if boxId = BOXSURFACE then rt.navTerrainFollowing
  else if boxId = BOXBRAKING then rt.rcModeActive BOXBRAKING
  else if boxId = BOXUSER1 then rt.rcModeActive BOXUSER1
  else if boxId = BOXUSER2 then rt.rcModeActive BOXUSER2
  else if boxId = BOXLOITERDIRCHN then rt.rcModeActive BOXLOITERDIRCHN
  else if boxId = BOXMSPRCOVERRIDE then
    b.useRxMspOverride && rt.rcModeActive BOXMSPRCOVERRIDE
  else if boxId = BOXAUTOLEVEL then rt.rcModeActive BOXAUTOLEVEL
  else if boxId = BOXPLANWPMISSION then rt.rcModeActive BOXPLANWPMISSION
  else if boxId = BOXSOARING then rt.rcModeActive BOXSOARING
  else false
/-- Final loop of `packBoxModeFlags`: for each position `i` of the
active-box list, `bitArraySet(bits, i)` iff `activeBoxes[activeBoxIds[i]]`.
The bitmask is returned as the natural number whose bit `i` is the i-th
position's flag. -/
def packBoxModeFlags (b : BuildConfig) (rt : RuntimeState) : List Nat → Nat
  | [] => 0
  | boxId :: rest =>
    (if checkActiveBoxes b rt boxId then 1 else 0) + 2 * packBoxModeFlags b rt rest
/-- A build with every compile-time option enabled and three OSD
layouts. -/
def fullFeatureBuild : BuildConfig where
  useGps := true
  useMrBrakingMode := true
  useAutotuneFixedWing := true
  useLights := true
  useLedStrip := true
  useTelemetry := true
  useBlackbox := true
  useRcdevice := true
  usePiniobox := true
  useOsd := true
  osdLayoutCount := 3
  useRxMspOverride := true
  useDshot := true
  useServoSbus := true
  useMag := true
  brushedMotors := false
  useSoftserial := true
  useFlmFlaperon := true
  rxChannelsTaer := false
  enableBlackboxOnSpiflash := false
/-- A runtime state in which only the PREARM RC mode is active. -/
def prearmOnlyRuntime : RuntimeState where
  flightModeAngle := false
  flightModeHorizon := false
  flightModeHeading := false
  flightModeHeadfree := false
  flightModeManual := false
  flightModeFailsafe := false
  flightModeNavAlthold := false
  flightModeNavPoshold := false
  flightModeNavCourseHold := false
  flightModeNavRth := false
  flightModeNavWp := false
  flightModeTurnAssistant := false
  flightModeNavLaunch := false
  flightModeAutoTune := false
  flightModeFlaperon := false
  armed := false
  rcModeActive := fun boxId => boxId == BOXPREARM
  navTerrainFollowing := false
/-! ### Config validator

Field widths: the touched config fields are unsigned C integers; they
are modelled as `Nat`, except the two navigation altitude thresholds,
which C compares through promoted signed arithmetic
(`land_slowdown_maxalt - 100` may be negative) and which are therefore
modelled as `Int`. -/
/-- Feature bit positions (masks below).  Modelled from the spec: the
feature enumeration lives outside the slice; only distinctness of the
bits matters. -/
def FEATURE_UNUSED_1 : Nat := 1 <<< 5
def FEATURE_SOFTSERIAL : Nat := 1 <<< 6
def FEATURE_GPS : Nat := 1 <<< 7
def FEATURE_UNUSED_3 : Nat := 1 <<< 8
def FEATURE_UNUSED_4 : Nat := 1 <<< 9
def FEATURE_TELEMETRY : Nat := 1 <<< 10
def FEATURE_UNUSED_5 : Nat := 1 <<< 13
def FEATURE_UNUSED_6 : Nat := 1 <<< 14
def FEATURE_LED_STRIP : Nat := 1 <<< 16
def FEATURE_UNUSED_7 : Nat := 1 <<< 18
def FEATURE_BLACKBOX : Nat := 1 <<< 19
def FEATURE_UNUSED_8 : Nat := 1 <<< 20
def FEATURE_UNUSED_9 : Nat := 1 <<< 21
def FEATURE_AIRMODE : Nat := 1 <<< 22
def FEATURE_UNUSED_10 : Nat := 1 <<< 26
/-- The mask cleared by the "Disable unused features" line. -/
def featureUnusedMask : Nat :=
  FEATURE_UNUSED_1 ||| FEATURE_UNUSED_3 ||| FEATURE_UNUSED_4 |||
  FEATURE_UNUSED_5 ||| FEATURE_UNUSED_6 ||| FEATURE_UNUSED_7 |||
  FEATURE_UNUSED_8 ||| FEATURE_UNUSED_9 ||| FEATURE_UNUSED_10
/-- `servoProtocolType_e` (header outside the slice; modelled from the
constants the slice uses). -/
inductive servoProtocolType_e where
  | SERVO_TYPE_PWM
  | SERVO_TYPE_SERVO_DRIVER
  | SERVO_TYPE_SBUS
  | SERVO_TYPE_SBUS_PWM
deriving DecidableEq, Repr
/-- `motorPwmProtocolTypes_e` in its enumeration order (DSHOT variants
above `PWM_TYPE_BRUSHED`). -/
inductive motorPwmProtocolTypes_e where
  | PWM_TYPE_STANDARD
  | PWM_TYPE_ONESHOT125
  | PWM_TYPE_MULTISHOT
  | PWM_TYPE_BRUSHED
  | PWM_TYPE_DSHOT150
  | PWM_TYPE_DSHOT300
  | PWM_TYPE_DSHOT600
deriving DecidableEq, Repr
/-- The numeric value of the enumeration constant, for the
`motorPwmProtocol > PWM_TYPE_BRUSHED` comparison. -/
def motorPwmProtocolTypes_e.toNat : motorPwmProtocolTypes_e → Nat
  | .PWM_TYPE_STANDARD => 0
  | .PWM_TYPE_ONESHOT125 => 1
  | .PWM_TYPE_MULTISHOT => 2
  | .PWM_TYPE_BRUSHED => 3
  | .PWM_TYPE_DSHOT150 => 4
  | .PWM_TYPE_DSHOT300 => 5
  | .PWM_TYPE_DSHOT600 => 6
/-- `sensor_align_e` constants used by the mag-alignment rule. -/
def ALIGN_DEFAULT : Nat := 0
def CW270_DEG_FLIP : Nat := 8
/-- `ARMING_DISABLED_INVALID_SETTING` mask in `armingFlags`. -/
def ARMING_DISABLED_INVALID_SETTING : Nat := 1 <<< 26
/-- The configuration snapshot: the fields of the registered parameter
groups that this slice reads or writes.  `serialConfig` stands for the
whole serial parameter group, which the slice treats as opaque (it only
resets it wholesale). -/
@[ext] structure ConfigState where
  enabledFeatures : Nat
  acc_notch_cutoff : Nat
  acc_notch_hz : Nat
  servo_protocol : servoProtocolType_e
  serialConfig : Nat
  land_slowdown_minalt : Int
  land_slowdown_maxalt : Int
  motorPwmProtocol : motorPwmProtocolTypes_e
  motorPwmRate : Nat
  mag_align : Nat
  current_profile_index : Nat
  current_battery_profile_index : Nat
  rcmap : String
deriving DecidableEq, Repr
/-- External collaborators of the validator: serial-config validation
(`isSerialConfigValid` / `pgResetCopy` default), the LED-strip /
softserial timer-contention predicate, and the global settings check
(`settingsValidate`). -/
structure ValEnv where
  isSerialConfigValid : Nat → Bool
  serialDefault : Nat
  ledStripTimerShared : Bool
  settingsOk : ConfigState → Bool
/-- `featureConfigured(mask)`: mask test on the feature config. -/
def featureConfigured (s : ConfigState) (mask : Nat) : Bool :=
  s.enabledFeatures &&& mask != 0
/-- `featureClear(mask)`: `enabledFeatures &= ~mask`. -/
def featureClear (mask : Nat) (s : ConfigState) : ConfigState :=
  { s with enabledFeatures := Nat.ldiff s.enabledFeatures mask }
/-- `featureSet(mask)`: `enabledFeatures |= mask`. -/
def featureSet (mask : Nat) (s : ConfigState) : ConfigState :=
  { s with enabledFeatures := s.enabledFeatures ||| mask }
/-- `constrain` from `common/maths.h` (outside the slice; standard
inclusive clamp). -/
def constrain (amt low high : Nat) : Nat :=
  if amt < low then low else if amt > high then high else amt
/-- Acc-notch rule: `acc_notch_cutoff >= acc_notch_hz ⇒ acc_notch_hz = 0`. -/
def fixAccNotch (s : ConfigState) : ConfigState :=
  if s.acc_notch_cutoff ≥ s.acc_notch_hz then { s with acc_notch_hz := 0 } else s
/-- LED-strip / softserial timer-contention rule (compiled only with
`USE_LED_STRIP` and a softserial): when both features are configured
and the WS2811 timer equals a softserial timer, clear
`FEATURE_LED_STRIP`. -/
def fixLedStripTimer (b : BuildConfig) (env : ValEnv) (s : ConfigState) : ConfigState :=
  if b.useLedStrip && b.useSoftserial && featureConfigured s FEATURE_SOFTSERIAL &&
      featureConfigured s FEATURE_LED_STRIP && env.ledStripTimerShared then
    featureClear FEATURE_LED_STRIP s
  else s
/-- Servo-protocol rule (`#ifndef USE_SERVO_SBUS`): SBUS variants fall
back to `SERVO_TYPE_PWM`. -/
def fixServoProtocol (b : BuildConfig) (s : ConfigState) : ConfigState :=
  if ¬b.useServoSbus ∧
      (s.servo_protocol = .SERVO_TYPE_SBUS ∨ s.servo_protocol = .SERVO_TYPE_SBUS_PWM) then
    { s with servo_protocol := .SERVO_TYPE_PWM }
  else s
/-- Serial-config rule: `!isSerialConfigValid ⇒ pgResetCopy` to the
group default. -/
def fixSerialConfig (env : ValEnv) (s : ConfigState) : ConfigState :=
  if env.isSerialConfigValid s.serialConfig then s
  else { s with serialConfig := env.serialDefault }
/-- `validateNavConfig`: make sure minAlt is not more than maxAlt minus
the fixed margin. -/
def validateNavConfig (s : ConfigState) : ConfigState :=
  { s with
    land_slowdown_minalt :=
      min s.land_slowdown_minalt (s.land_slowdown_maxalt - 100) }
/-- Motor-protocol rule (`#if !defined(USE_DSHOT)`): protocols above
`PWM_TYPE_BRUSHED` fall back to `PWM_TYPE_MULTISHOT`. -/
def fixMotorProtocolNonDshot (b : BuildConfig) (s : ConfigState) : ConfigState :=
  if ¬b.useDshot ∧
      s.motorPwmProtocol.toNat > motorPwmProtocolTypes_e.PWM_TYPE_BRUSHED.toNat then
    { s with motorPwmProtocol := .PWM_TYPE_MULTISHOT }
  else s
/-- Motor-rate rule: the `BRUSHED_MOTORS` build clamps to 500..32000;
otherwise the switch on `motorPwmProtocol` clamps to the per-protocol
band.  (In a non-`USE_DSHOT` build the DSHOT arms are unreachable: the
protocol was already forced to `PWM_TYPE_MULTISHOT`.) -/
def fixMotorPwmRate (b : BuildConfig) (s : ConfigState) : ConfigState :=
  if b.brushedMotors then
    { s with motorPwmRate := constrain s.motorPwmRate 500 32000 }
  else
    match s.motorPwmProtocol with
    | .PWM_TYPE_STANDARD => -- Limited to 490 Hz
      { s with motorPwmRate := min s.motorPwmRate 490 }
    | .PWM_TYPE_ONESHOT125 => -- Limited to 3900 Hz
      { s with motorPwmRate := min s.motorPwmRate 3900 }
    | .PWM_TYPE_MULTISHOT => -- 2-16 kHz
      { s with motorPwmRate := constrain s.motorPwmRate 2000 16000 }
    | .PWM_TYPE_BRUSHED => -- 500Hz - 32kHz
      { s with motorPwmRate := constrain s.motorPwmRate 500 32000 }
    | .PWM_TYPE_DSHOT150 =>
      { s with motorPwmRate := min s.motorPwmRate 4000 }
    | .PWM_TYPE_DSHOT300 =>
      { s with motorPwmRate := min s.motorPwmRate 8000 }
    | .PWM_TYPE_DSHOT600 =>
      { s with motorPwmRate := min s.motorPwmRate 16000 }
/-- Mag-alignment rule (`#ifdef USE_MAG`): `ALIGN_DEFAULT` becomes
`CW270_DEG_FLIP`. -/
def fixMagAlign (b : BuildConfig) (s : ConfigState) : ConfigState :=
  if b.useMag ∧ s.mag_align = ALIGN_DEFAULT then
    { s with mag_align := CW270_DEG_FLIP }
  else s
/-- Final step: `settingsValidate` sets or clears
`ARMING_DISABLED_INVALID_SETTING` in the arming flags. -/
def updateInvalidSettingFlag (env : ValEnv) (s : ConfigState) (armingFlags : Nat) : Nat :=
  if env.settingsOk s then Nat.ldiff armingFlags ARMING_DISABLED_INVALID_SETTING
  else armingFlags ||| ARMING_DISABLED_INVALID_SETTING
/-- `validateAndFixConfig`: the fix-up rules in source order
(`validateAndFixTargetConfig` is the weak no-op stub of the slice). -/
def validateAndFixConfig (b : BuildConfig) (env : ValEnv)
    (s : ConfigState) (armingFlags : Nat) : ConfigState × Nat :=
  let s := fixAccNotch s
  -- Disable unused features
  let s := featureClear featureUnusedMask s
  let s := fixLedStripTimer b env s
  let s := fixServoProtocol b s
  let s := fixSerialConfig env s
  -- Ensure sane values of navConfig settings
  let s := validateNavConfig s
  -- Limitations of different protocols
  let s := fixMotorProtocolNonDshot b s
  let s := fixMotorPwmRate b s
  -- validateAndFixTargetConfig(): weak stub, __NOP()
  let s := fixMagAlign b s
  (s, updateInvalidSettingFlag env s armingFlags)
/-- An environment in which the serial config always validates and the
global settings check always passes. -/
def testValEnv : ValEnv where
  isSerialConfigValid := fun _ => true
  serialDefault := 0
  ledStripTimerShared := false
  settingsOk := fun _ => true
/-- The parameter-group reset defaults.  Modelled from the spec: the
slice's own reset templates set both profile indices to 0; the other
groups' defaults live outside the slice and their exact values are
immaterial, so representative constants are used. -/
def defaultConfigState : ConfigState where
  enabledFeatures := 0
  acc_notch_cutoff := 0
  acc_notch_hz := 0
  servo_protocol := .SERVO_TYPE_PWM
  serialConfig := 0
  land_slowdown_minalt := 500
  land_slowdown_maxalt := 2000
  motorPwmProtocol := .PWM_TYPE_ONESHOT125
  motorPwmRate := 400
  mag_align := 0
  current_profile_index := 0
  current_battery_profile_index := 0
  rcmap := "AETR1234"
/-- A snapshot with a DSHOT600 protocol and an out-of-band rate. -/
def dshotTestConfig : ConfigState :=
  { defaultConfigState with
      motorPwmProtocol := .PWM_TYPE_DSHOT600, motorPwmRate := 50000 }
/-! ### Profile and persistence manager -/
/-- `MAX_PROFILE_COUNT` / `MAX_BATTERY_PROFILE_COUNT`.  Modelled from
the spec: the profile arrays are fixed-size; the counts live outside
the slice (3 in this firmware), only positivity matters. -/
def MAX_PROFILE_COUNT : Nat := 3
def MAX_BATTERY_PROFILE_COUNT : Nat := 3
/-- The system state the persistence slice touches: the active RAM
snapshot, arming flags, the activated parameter-group / control-rate /
battery profiles, the persisted image with its validity flag, a write
counter (one per `writeConfigToEEPROM`), and the emitted confirmation
beeps. -/
@[ext] structure FcState where
  config : ConfigState
  armingFlags : Nat
  pgActiveProfile : Nat
  controlRateProfile : Nat
  batteryProfile : Nat
  eepromImage : ConfigState
  eepromValid : Bool
  eepromWriteCount : Nat
  beeps : List Nat
deriving DecidableEq, Repr
def getConfigProfile (st : FcState) : Nat := st.config.current_profile_index
def getConfigBatteryProfile (st : FcState) : Nat :=
  st.config.current_battery_profile_index
/-- `setConfigProfile`: the changed-test compares the raw requested
index before the `>= MAX_PROFILE_COUNT` clamp, exactly as the source
does; then activates the (clamped) profile, stores it and sets the
matching control-rate profile. -/
def setConfigProfile (profileIndex : Nat) (st : FcState) : Bool × FcState :=
  -- bool ret = true; // return true if current_profile_index has changed
  let ret := decide (st.config.current_profile_index ≠ profileIndex)
  -- sanity check
  let profileIndex := if profileIndex ≥ MAX_PROFILE_COUNT then 0 else profileIndex
  (ret,
    { st with
        pgActiveProfile := profileIndex,
        config := { st.config with current_profile_index := profileIndex },
        controlRateProfile := profileIndex })
/-- `setConfigBatteryProfile`, same shape as `setConfigProfile`. -/
def setConfigBatteryProfile (profileIndex : Nat) (st : FcState) : Bool × FcState :=
  let ret := decide (st.config.current_battery_profile_index ≠ profileIndex)
  -- sanity check
  let profileIndex :=
    if profileIndex ≥ MAX_BATTERY_PROFILE_COUNT then 0 else profileIndex
  (ret,
    { st with
        config := { st.config with current_battery_profile_index := profileIndex },
        batteryProfile := profileIndex })
/-- `writeEEPROM`: `writeConfigToEEPROM` serializes the RAM groups into
the image and leaves it valid (the RX suspend/resume bracket has no
modelled state). -/
def writeEEPROM (st : FcState) : FcState :=
  { st with
      eepromImage := st.config,
      eepromValid := true,
      eepromWriteCount := st.eepromWriteCount + 1 }
/-- `activateConfig`: every callee (control-rate activation, battery
profile, adjustments, mode conditions, failsafe, acc, imu, pid, nav)
acts on subsystems outside this slice; no modelled state changes. -/
def activateConfig (st : FcState) : FcState := st
/-- `readEEPROM`: load the image into RAM (`loadEEPROM`; an unreadable
store is the fatal `failureMode` path, not modelled), re-select both
profiles, validate-and-fix, then activate. -/
def readEEPROM (b : BuildConfig) (env : ValEnv) (st : FcState) : FcState :=
  let st := { st with config := st.eepromImage }
  let st := (setConfigProfile (getConfigProfile st) st).2
  let st := (setConfigBatteryProfile (getConfigBatteryProfile st) st).2
  let r := validateAndFixConfig b env st.config st.armingFlags
  let st := { st with config := r.1, armingFlags := r.2 }
  activateConfig st
/-- `setConfigProfileAndWriteEEPROM`: a profile change (as reported by
`setConfigProfile`) triggers save+reload; then the confirmation beeps. -/
def setConfigProfileAndWriteEEPROM (b : BuildConfig) (env : ValEnv)
    (profileIndex : Nat) (st : FcState) : FcState :=
  let r := setConfigProfile profileIndex st
  let st := if r.1 then readEEPROM b env (writeEEPROM r.2) else r.2
  { st with beeps := st.beeps ++ [profileIndex + 1] }
/-- `pgResetAll(MAX_PROFILE_COUNT)`.  Modelled from the spec: resets
every registered group across every profile slot to its defaults; the
aggregate RAM snapshot becomes the group defaults. -/
def pgResetAll (st : FcState) : FcState :=
  { st with config := defaultConfigState }
/-- `pgActivateProfile`. -/
def pgActivateProfile (profileIndex : Nat) (st : FcState) : FcState :=
  { st with pgActiveProfile := profileIndex }
/-- `createDefaultConfig`: rc channel map defaults, optional blackbox
feature default, `FEATURE_AIRMODE`; `targetConfiguration()` is the weak
no-op stub. -/
def createDefaultConfig (b : BuildConfig) (st : FcState) : FcState :=
  let st := { st with config := { st.config with
      rcmap := if b.rxChannelsTaer then "TAER1234" else "AETR1234" } }
  let st := if b.useBlackbox && b.enableBlackboxOnSpiflash then
      { st with config := featureSet FEATURE_BLACKBOX st.config }
    else st
  { st with config := featureSet FEATURE_AIRMODE st.config }
/-- `resetConfigs`: reset all groups, activate profile 0, create the
defaults, then re-select the stored (default 0) profile
(`reevaluateLedConfig` acts outside the slice). -/
def resetConfigs (b : BuildConfig) (st : FcState) : FcState :=
  let st := pgResetAll st
  let st := pgActivateProfile 0 st
  let st := createDefaultConfig b st
  (setConfigProfile (getConfigProfile st) st).2
/-- `resetEEPROM`: full reset followed by a write. -/
def resetEEPROM (b : BuildConfig) (st : FcState) : FcState :=
  writeEEPROM (resetConfigs b st)
/-- `ensureEEPROMContainsValidData`: nothing to do when the persisted
image passes the integrity check, otherwise `resetEEPROM`. -/
def ensureEEPROMContainsValidData (b : BuildConfig) (st : FcState) : FcState :=
  if st.eepromValid then st else resetEEPROM b st
/-- The configuration produced by a factory reset: group defaults plus
`createDefaultConfig`'s additions. -/
def factoryResetConfig (b : BuildConfig) : ConfigState :=
  { defaultConfigState with
      rcmap := if b.rxChannelsTaer then "TAER1234" else "AETR1234",
      enabledFeatures :=
        (if b.useBlackbox && b.enableBlackboxOnSpiflash then
          defaultConfigState.enabledFeatures ||| FEATURE_BLACKBOX
        else defaultConfigState.enabledFeatures) ||| FEATURE_AIRMODE }
/-- A boot state with a valid image. -/
def bootStateValid : FcState where
  config := defaultConfigState
  armingFlags := 0
  pgActiveProfile := 0
  controlRateProfile := 0
  batteryProfile := 0
  eepromImage := defaultConfigState
  eepromValid := true
  eepromWriteCount := 0
  beeps := []
/-- A boot state whose image failed the integrity check, with stale
RAM contents. -/
def bootStateInvalid : FcState :=
  { bootStateValid with
      eepromValid := false,
      config := { defaultConfigState with
        current_profile_index := 2, motorPwmRate := 9999 } }

/-- C10: both lookup functions scan the sentinel entry as well:
`findBoxByPermanentId(0xFF)` and `findBoxByActiveBoxId(CHECKBOX_ITEM_COUNT)`
return the sentinel descriptor rather than `NULL`, and for every 8-bit id
matching no table entry (the sentinel included) both return `NULL`. -/
theorem lookups_scan_sentinel_and_miss_is_null :
    findBoxByPermanentId 0xFF = some ⟨CHECKBOX_ITEM_COUNT, none, 0xFF⟩ ∧
    findBoxByActiveBoxId CHECKBOX_ITEM_COUNT = some ⟨CHECKBOX_ITEM_COUNT, none, 0xFF⟩ ∧
    (∀ pid : Fin 256, findBoxByPermanentId pid.val = none ↔
      pid.val ∉ boxes.map box_t.permanentId) ∧
    (∀ bid : Fin 256, findBoxByActiveBoxId bid.val = none ↔
      bid.val ∉ boxes.map box_t.boxId) := by
  refine ⟨by decide, by decide, ?_, ?_⟩ <;> decide

theorem boxNamesReply_cons (id : Nat) (rest : List Nat) :
    boxNamesReply (id :: rest) = boxNameChunk id ++ boxNamesReply rest := by
  simp [boxNamesReply]

theorem boxNamesReplyLength_eq (activeBoxIds : List Nat) :
    boxNamesReplyLength activeBoxIds = (boxNamesReply activeBoxIds).length := by
  have key : ∀ (l : List Nat) (n : Nat),
      l.foldl (fun replyLengthTotal i =>
        match findBoxByActiveBoxId i with
        | some box => replyLengthTotal + (box.boxName.getD "").length + BOX_SUFFIX_LEN
        | none => replyLengthTotal) n = n + (boxNamesReply l).length := by
    intro l
    induction l with
    | nil => intro n; simp [boxNamesReply]
    | cons id rest ih =>
      intro n
      rw [List.foldl_cons, ih, boxNamesReply_cons, List.length_append]
      rcases h : findBoxByActiveBoxId id with _ | box
      · simp [boxNameChunk, h]
      · simp only [boxNameChunk, h, BOX_SUFFIX_LEN, List.length_append,
          List.length_cons, List.length_nil, Option.getD_some, String.length]
        ring
  simpa [boxNamesReply] using key activeBoxIds 0

theorem writeBoxNamesLoop_eq (activeBoxIds : List Nat) (dst : sbuf_t) :
    writeBoxNamesLoop activeBoxIds dst =
      ⟨dst.data ++ boxNamesReply activeBoxIds,
       dst.remaining - (boxNamesReply activeBoxIds).length⟩ := by
  induction activeBoxIds generalizing dst with
  | nil => simp [writeBoxNamesLoop, boxNamesReply]
  | cons id rest ih =>
    rw [boxNamesReply_cons]
    rcases h : findBoxByActiveBoxId id with _ | box
    · simp [writeBoxNamesLoop, h, ih, boxNameChunk]
    · simp only [writeBoxNamesLoop, h, ih, boxNameChunk, sbufWriteU8, sbufWriteData]
      refine congrArg₂ sbuf_t.mk ?_ ?_
      · simp
      · simp only [List.length_append, List.length_cons, List.length_nil]
        omega
/-- C3: `serializeBoxNamesReply` is atomic on capacity failure: when the
remaining space is smaller than the full semicolon-suffixed name list it
returns `false` and writes nothing; otherwise it writes exactly the full
name list in active-list order and returns `true`. -/
theorem serializeBoxNamesReply_atomic (activeBoxIds : List Nat) (dst : sbuf_t) :
    (dst.remaining < (boxNamesReply activeBoxIds).length →
      serializeBoxNamesReply activeBoxIds dst = (false, dst)) ∧
    ((boxNamesReply activeBoxIds).length ≤ dst.remaining →
      serializeBoxNamesReply activeBoxIds dst =
        (true, ⟨dst.data ++ boxNamesReply activeBoxIds,
                dst.remaining - (boxNamesReply activeBoxIds).length⟩)) := by
  constructor
  · intro h
    simp [serializeBoxNamesReply, boxNamesReplyLength_eq, sbufBytesRemaining, h]
  · intro h
    simp [serializeBoxNamesReply, boxNamesReplyLength_eq, sbufBytesRemaining,
      Nat.not_lt.mpr h, writeBoxNamesLoop_eq]
/-- Witness for C3: the reply for the single active box ARM is `"ARM;"`
(4 bytes); a 3-byte buffer gets the failure and stays untouched, a
4-byte buffer receives exactly `"ARM;"`. -/
theorem serializeBoxNamesReply_atomic_witness :
    serializeBoxNamesReply [BOXARM] ⟨[], 3⟩ = (false, ⟨[], 3⟩) ∧
    serializeBoxNamesReply [BOXARM] ⟨[], 4⟩ =
      (true, ⟨['A', 'R', 'M', ';'], 0⟩) := by
  constructor
  · exact (serializeBoxNamesReply_atomic [BOXARM] ⟨[], 3⟩).1 (by decide)
  · have h := (serializeBoxNamesReply_atomic [BOXARM] ⟨[], 4⟩).2 (by decide)
    simpa using h

theorem ite_nil_sublist {c : Prop} [Decidable c] (xs : List Nat) :
    List.Sublist (if c then xs else []) xs := by
  split
  · exact List.Sublist.refl xs
  · exact List.nil_sublist xs

theorem ite_nil_sublist_of {c : Prop} [Decidable c] {p q : List Nat}
    (h : List.Sublist p q) : List.Sublist (if c then p else []) q := by
  split
  · exact h
  · exact List.nil_sublist q

theorem initActiveBoxIds_sublist_boxAddOrder (b : BuildConfig) (c : BoxContext) :
    List.Sublist (initActiveBoxIds b c) boxAddOrder := by
  unfold initActiveBoxIds boxAddOrder
  refine List.Sublist.append ?_ (ite_nil_sublist _)
  refine List.Sublist.append ?_ (ite_nil_sublist _)
  refine List.Sublist.append ?_ (ite_nil_sublist_of
    (List.Sublist.append (List.Sublist.refl _)
      (ite_nil_sublist_of
        (List.Sublist.append (List.Sublist.refl _) (ite_nil_sublist _)))))
  refine List.Sublist.append ?_ (ite_nil_sublist _)
  refine List.Sublist.append ?_ (ite_nil_sublist _)
  refine List.Sublist.append ?_ (List.Sublist.refl _)
  refine List.Sublist.append ?_ (ite_nil_sublist _)
  refine List.Sublist.append ?_ (ite_nil_sublist _)
  refine List.Sublist.append ?_ (List.Sublist.refl _)
  refine List.Sublist.append ?_ (ite_nil_sublist _)
  refine List.Sublist.append ?_ (ite_nil_sublist _)
  refine List.Sublist.append ?_ (List.Sublist.refl _)
  refine List.Sublist.append ?_ (ite_nil_sublist _)
  refine List.Sublist.append ?_ (ite_nil_sublist_of
    (List.Sublist.append
      (List.Sublist.append
        (List.Sublist.append (ite_nil_sublist _) (ite_nil_sublist _))
        (ite_nil_sublist _))
      (ite_nil_sublist _)))
  refine List.Sublist.append ?_ (ite_nil_sublist _)
  refine List.Sublist.append ?_ (ite_nil_sublist _)
  refine List.Sublist.append ?_ (ite_nil_sublist_of
    (List.Sublist.append
      (List.Sublist.append
        (ite_nil_sublist_of
          (List.Sublist.append (List.Sublist.refl _) (ite_nil_sublist _)))
        (ite_nil_sublist_of
          (List.Sublist.append (ite_nil_sublist _) (ite_nil_sublist _))))
      (ite_nil_sublist _)))
  refine List.Sublist.append ?_ (ite_nil_sublist_of
    (List.Sublist.append
      (List.Sublist.append (ite_nil_sublist _) (ite_nil_sublist _))
      (List.Sublist.refl _)))
  refine List.Sublist.append ?_ (List.Sublist.refl _)
  refine List.Sublist.append ?_ (ite_nil_sublist _)
  exact List.Sublist.append (List.Sublist.refl _) (ite_nil_sublist _)
/-- C9: the active-box list contains each box id at most once, for every
compile-time configuration and every runtime context, and its length
never exceeds `CHECKBOX_ITEM_COUNT`, so every `ADD_ACTIVE_BOX` write
stays inside `activeBoxIds[CHECKBOX_ITEM_COUNT]`. -/
theorem initActiveBoxIds_nodup_and_bounded (b : BuildConfig) (c : BoxContext) :
    (initActiveBoxIds b c).Nodup ∧
    (initActiveBoxIds b c).length ≤ CHECKBOX_ITEM_COUNT := by
  have h := initActiveBoxIds_sublist_boxAddOrder b c
  constructor
  · exact List.Nodup.sublist h (by decide)
  · calc (initActiveBoxIds b c).length ≤ boxAddOrder.length := h.length_le
    _ ≤ CHECKBOX_ITEM_COUNT := by decide
/-- C8: with no sensors and a multirotor vehicle, under every
compile-time configuration, the active-box list contains ARM, PREARM,
HEADING HOLD, CAMSTAB, BEEPER, OSD, KILLSWITCH and FAILSAFE, and none of
the navigation or altitude boxes. -/
theorem initActiveBoxIds_no_sensors_multirotor (b : BuildConfig) :
    BOXARM ∈ initActiveBoxIds b noSensorsMultirotorContext ∧
    BOXPREARM ∈ initActiveBoxIds b noSensorsMultirotorContext ∧
    BOXHEADINGHOLD ∈ initActiveBoxIds b noSensorsMultirotorContext ∧
    BOXCAMSTAB ∈ initActiveBoxIds b noSensorsMultirotorContext ∧
    BOXBEEPERON ∈ initActiveBoxIds b noSensorsMultirotorContext ∧
    BOXOSD ∈ initActiveBoxIds b noSensorsMultirotorContext ∧
    BOXKILLSWITCH ∈ initActiveBoxIds b noSensorsMultirotorContext ∧
    BOXFAILSAFE ∈ initActiveBoxIds b noSensorsMultirotorContext ∧
    BOXNAVALTHOLD ∉ initActiveBoxIds b noSensorsMultirotorContext ∧
    BOXNAVPOSHOLD ∉ initActiveBoxIds b noSensorsMultirotorContext ∧
    BOXNAVRTH ∉ initActiveBoxIds b noSensorsMultirotorContext ∧
    BOXNAVWP ∉ initActiveBoxIds b noSensorsMultirotorContext ∧
    BOXNAVCRUISE ∉ initActiveBoxIds b noSensorsMultirotorContext ∧
    BOXNAVCOURSEHOLD ∉ initActiveBoxIds b noSensorsMultirotorContext ∧
    BOXNAVLAUNCH ∉ initActiveBoxIds b noSensorsMultirotorContext ∧
    BOXHOMERESET ∉ initActiveBoxIds b noSensorsMultirotorContext ∧
    BOXGCSNAV ∉ initActiveBoxIds b noSensorsMultirotorContext ∧
    BOXPLANWPMISSION ∉ initActiveBoxIds b noSensorsMultirotorContext ∧
    BOXLOITERDIRCHN ∉ initActiveBoxIds b noSensorsMultirotorContext ∧
    BOXSURFACE ∉ initActiveBoxIds b noSensorsMultirotorContext ∧
    BOXSOARING ∉ initActiveBoxIds b noSensorsMultirotorContext := by
  simp only [initActiveBoxIds, noSensorsMultirotorContext]
  simp [BOXARM, BOXANGLE, BOXHORIZON, BOXNAVALTHOLD, BOXHEADINGHOLD, BOXHEADFREE,
    BOXHEADADJ, BOXCAMSTAB, BOXNAVRTH, BOXNAVPOSHOLD, BOXMANUAL, BOXBEEPERON,
    BOXLEDLOW, BOXLIGHTS, BOXOSD, BOXTELEMETRY, BOXAUTOTUNE, BOXBLACKBOX,
    BOXFAILSAFE, BOXNAVWP, BOXAIRMODE, BOXHOMERESET, BOXGCSNAV, BOXFPVANGLEMIX,
    BOXSURFACE, BOXFLAPERON, BOXTURNASSIST, BOXNAVLAUNCH, BOXAUTOTRIM,
    BOXKILLSWITCH, BOXCAMERA1, BOXCAMERA2, BOXCAMERA3, BOXOSDALT1, BOXOSDALT2,
    BOXOSDALT3, BOXNAVCOURSEHOLD, BOXBRAKING, BOXUSER1, BOXUSER2,
    BOXLOITERDIRCHN, BOXMSPRCOVERRIDE, BOXPREARM, BOXTURTLE, BOXNAVCRUISE,
    BOXAUTOLEVEL, BOXPLANWPMISSION, BOXSOARING]

theorem packBoxModeFlags_testBit (b : BuildConfig) (rt : RuntimeState) :
    ∀ (ids : List Nat) (i : Nat) (h : i < ids.length),
      (packBoxModeFlags b rt ids).testBit i = checkActiveBoxes b rt (ids.get ⟨i, h⟩) := by
  intro ids
  induction ids with
  | nil => intro i h; exact absurd h (by simp)
  | cons id rest ih =>
    intro i h
    match i with
    | 0 =>
      simp only [packBoxModeFlags, List.get, Nat.testBit_zero]
      rcases hc : checkActiveBoxes b rt id with _ | _ <;> simp [hc]
    | i + 1 =>
      have hrest : i < rest.length := by simpa using Nat.lt_of_succ_lt_succ h
      simp only [packBoxModeFlags, List.get]
      rw [Nat.testBit_add_one]
      have hdiv : ((if checkActiveBoxes b rt id then 1 else 0) +
          2 * packBoxModeFlags b rt rest) / 2 = packBoxModeFlags b rt rest := by
        split <;> omega
      rw [hdiv]
      exact ih i hrest

theorem serializeBoxReply_length_of_found :
    ∀ ids : List Nat, (∀ id ∈ ids, (findBoxByActiveBoxId id).isSome) →
      (serializeBoxReply ids).length = ids.length := by
  intro ids
  induction ids with
  | nil => intro _; rfl
  | cons id rest ih =>
    intro h
    have hid := h id (List.mem_cons_self id rest)
    rcases hfind : findBoxByActiveBoxId id with _ | box
    · rw [hfind] at hid; exact absurd hid (by simp)
    · simp only [serializeBoxReply, hfind, List.length_cons]
      rw [ih (fun x hx => h x (List.mem_cons_of_mem id hx))]

theorem initActiveBoxIds_all_found (b : BuildConfig) (c : BoxContext) :
    ∀ id ∈ initActiveBoxIds b c, (findBoxByActiveBoxId id).isSome := by
  intro id hid
  have hmem : id ∈ boxAddOrder :=
    (initActiveBoxIds_sublist_boxAddOrder b c).mem hid
  revert hmem
  have : ∀ x ∈ boxAddOrder, (findBoxByActiveBoxId x).isSome := by decide
  exact this id
/-- C4 (amended): for every active-box list produced by
`initActiveBoxIds`, `serializeBoxReply` emits exactly one permanent-id
byte per active box (its length equals the active-box count), and bit
`i` of the `packBoxModeFlags` bitmask equals the `CHECK_ACTIVE_BOX`
predicate of the box at position `i` of the list (boxes without a
`CHECK_ACTIVE_BOX` line, BOXPREARM and BOXTURTLE, always report 0). -/
theorem serialization_aligned_with_active_list (b : BuildConfig) (c : BoxContext)
    (rt : RuntimeState) (i : Nat) (h : i < (initActiveBoxIds b c).length) :
    (serializeBoxReply (initActiveBoxIds b c)).length =
      (initActiveBoxIds b c).length ∧
    (packBoxModeFlags b rt (initActiveBoxIds b c)).testBit i =
      checkActiveBoxes b rt ((initActiveBoxIds b c).get ⟨i, h⟩) := by
  refine ⟨?_, packBoxModeFlags_testBit b rt _ i h⟩
  exact serializeBoxReply_length_of_found _ (initActiveBoxIds_all_found b c)
/-- Counterexample for C4 as stated: BOXPREARM sits at position 1 of
the active-box list, its RC mode is active, yet bit 1 of the packed
mode flags stays 0, because `packBoxModeFlags` has no
`CHECK_ACTIVE_BOX` line for BOXPREARM. -/
theorem packBoxModeFlags_misses_prearm :
    (initActiveBoxIds fullFeatureBuild noSensorsMultirotorContext)[1]? =
      some BOXPREARM ∧
    prearmOnlyRuntime.rcModeActive BOXPREARM = true ∧
    (packBoxModeFlags fullFeatureBuild prearmOnlyRuntime
      (initActiveBoxIds fullFeatureBuild noSensorsMultirotorContext)).testBit 1 =
      false := by
  refine ⟨by decide, by decide, by decide⟩
/-- Witness for the amended C4 theorem at a concrete build, context,
runtime state and position. -/
theorem serialization_aligned_with_active_list_witness :
    (serializeBoxReply
        (initActiveBoxIds fullFeatureBuild noSensorsMultirotorContext)).length =
      (initActiveBoxIds fullFeatureBuild noSensorsMultirotorContext).length ∧
    (packBoxModeFlags fullFeatureBuild prearmOnlyRuntime
        (initActiveBoxIds fullFeatureBuild noSensorsMultirotorContext)).testBit 0 =
      checkActiveBoxes fullFeatureBuild prearmOnlyRuntime
        ((initActiveBoxIds fullFeatureBuild noSensorsMultirotorContext).get
          ⟨0, by decide⟩) :=
  serialization_aligned_with_active_list fullFeatureBuild
    noSensorsMultirotorContext prearmOnlyRuntime 0 (by decide)
/-! Projection lemmas: each fix-up rule leaves every field it does not
write unchanged. -/

@[simp] theorem fixAccNotch_enabledFeatures (s : ConfigState) :
    (fixAccNotch s).enabledFeatures = s.enabledFeatures := by
  unfold fixAccNotch
  split <;> rfl

@[simp] theorem fixAccNotch_acc_notch_cutoff (s : ConfigState) :
    (fixAccNotch s).acc_notch_cutoff = s.acc_notch_cutoff := by
  unfold fixAccNotch
  split <;> rfl

@[simp] theorem fixAccNotch_servo_protocol (s : ConfigState) :
    (fixAccNotch s).servo_protocol = s.servo_protocol := by
  unfold fixAccNotch
  split <;> rfl

@[simp] theorem fixAccNotch_serialConfig (s : ConfigState) :
    (fixAccNotch s).serialConfig = s.serialConfig := by
  unfold fixAccNotch
  split <;> rfl

@[simp] theorem fixAccNotch_land_slowdown_minalt (s : ConfigState) :
    (fixAccNotch s).land_slowdown_minalt = s.land_slowdown_minalt := by
  unfold fixAccNotch
  split <;> rfl

@[simp] theorem fixAccNotch_land_slowdown_maxalt (s : ConfigState) :
    (fixAccNotch s).land_slowdown_maxalt = s.land_slowdown_maxalt := by
  unfold fixAccNotch
  split <;> rfl

@[simp] theorem fixAccNotch_motorPwmProtocol (s : ConfigState) :
    (fixAccNotch s).motorPwmProtocol = s.motorPwmProtocol := by
  unfold fixAccNotch
  split <;> rfl

@[simp] theorem fixAccNotch_motorPwmRate (s : ConfigState) :
    (fixAccNotch s).motorPwmRate = s.motorPwmRate := by
  unfold fixAccNotch
  split <;> rfl

@[simp] theorem fixAccNotch_mag_align (s : ConfigState) :
    (fixAccNotch s).mag_align = s.mag_align := by
  unfold fixAccNotch
  split <;> rfl

@[simp] theorem fixAccNotch_current_profile_index (s : ConfigState) :
    (fixAccNotch s).current_profile_index = s.current_profile_index := by
  unfold fixAccNotch
  split <;> rfl

@[simp] theorem fixAccNotch_current_battery_profile_index (s : ConfigState) :
    (fixAccNotch s).current_battery_profile_index = s.current_battery_profile_index := by
  unfold fixAccNotch
  split <;> rfl

@[simp] theorem fixAccNotch_rcmap (s : ConfigState) :
    (fixAccNotch s).rcmap = s.rcmap := by
  unfold fixAccNotch
  split <;> rfl

@[simp] theorem featureClear_acc_notch_cutoff (m : Nat) (s : ConfigState) :
    (featureClear m s).acc_notch_cutoff = s.acc_notch_cutoff := rfl

@[simp] theorem featureClear_acc_notch_hz (m : Nat) (s : ConfigState) :
    (featureClear m s).acc_notch_hz = s.acc_notch_hz := rfl

@[simp] theorem featureClear_servo_protocol (m : Nat) (s : ConfigState) :
    (featureClear m s).servo_protocol = s.servo_protocol := rfl

@[simp] theorem featureClear_serialConfig (m : Nat) (s : ConfigState) :
    (featureClear m s).serialConfig = s.serialConfig := rfl

@[simp] theorem featureClear_land_slowdown_minalt (m : Nat) (s : ConfigState) :
    (featureClear m s).land_slowdown_minalt = s.land_slowdown_minalt := rfl

@[simp] theorem featureClear_land_slowdown_maxalt (m : Nat) (s : ConfigState) :
    (featureClear m s).land_slowdown_maxalt = s.land_slowdown_maxalt := rfl

@[simp] theorem featureClear_motorPwmProtocol (m : Nat) (s : ConfigState) :
    (featureClear m s).motorPwmProtocol = s.motorPwmProtocol := rfl

@[simp] theorem featureClear_motorPwmRate (m : Nat) (s : ConfigState) :
    (featureClear m s).motorPwmRate = s.motorPwmRate := rfl

@[simp] theorem featureClear_mag_align (m : Nat) (s : ConfigState) :
    (featureClear m s).mag_align = s.mag_align := rfl

@[simp] theorem featureClear_current_profile_index (m : Nat) (s : ConfigState) :
    (featureClear m s).current_profile_index = s.current_profile_index := rfl

@[simp] theorem featureClear_current_battery_profile_index (m : Nat) (s : ConfigState) :
    (featureClear m s).current_battery_profile_index = s.current_battery_profile_index := rfl

@[simp] theorem featureClear_rcmap (m : Nat) (s : ConfigState) :
    (featureClear m s).rcmap = s.rcmap := rfl

@[simp] theorem featureSet_acc_notch_cutoff (m : Nat) (s : ConfigState) :
    (featureSet m s).acc_notch_cutoff = s.acc_notch_cutoff := rfl

@[simp] theorem featureSet_acc_notch_hz (m : Nat) (s : ConfigState) :
    (featureSet m s).acc_notch_hz = s.acc_notch_hz := rfl

@[simp] theorem featureSet_servo_protocol (m : Nat) (s : ConfigState) :
    (featureSet m s).servo_protocol = s.servo_protocol := rfl

@[simp] theorem featureSet_serialConfig (m : Nat) (s : ConfigState) :
    (featureSet m s).serialConfig = s.serialConfig := rfl

@[simp] theorem featureSet_land_slowdown_minalt (m : Nat) (s : ConfigState) :
    (featureSet m s).land_slowdown_minalt = s.land_slowdown_minalt := rfl

@[simp] theorem featureSet_land_slowdown_maxalt (m : Nat) (s : ConfigState) :
    (featureSet m s).land_slowdown_maxalt = s.land_slowdown_maxalt := rfl

@[simp] theorem featureSet_motorPwmProtocol (m : Nat) (s : ConfigState) :
    (featureSet m s).motorPwmProtocol = s.motorPwmProtocol := rfl

@[simp] theorem featureSet_motorPwmRate (m : Nat) (s : ConfigState) :
    (featureSet m s).motorPwmRate = s.motorPwmRate := rfl

@[simp] theorem featureSet_mag_align (m : Nat) (s : ConfigState) :
    (featureSet m s).mag_align = s.mag_align := rfl

@[simp] theorem featureSet_current_profile_index (m : Nat) (s : ConfigState) :
    (featureSet m s).current_profile_index = s.current_profile_index := rfl

@[simp] theorem featureSet_current_battery_profile_index (m : Nat) (s : ConfigState) :
    (featureSet m s).current_battery_profile_index = s.current_battery_profile_index := rfl

@[simp] theorem featureSet_rcmap (m : Nat) (s : ConfigState) :
    (featureSet m s).rcmap = s.rcmap := rfl

@[simp] theorem fixLedStripTimer_acc_notch_cutoff (b : BuildConfig) (env : ValEnv) (s : ConfigState) :
    (fixLedStripTimer b env s).acc_notch_cutoff = s.acc_notch_cutoff := by
  unfold fixLedStripTimer featureClear
  split <;> rfl

@[simp] theorem fixLedStripTimer_acc_notch_hz (b : BuildConfig) (env : ValEnv) (s : ConfigState) :
    (fixLedStripTimer b env s).acc_notch_hz = s.acc_notch_hz := by
  unfold fixLedStripTimer featureClear
  split <;> rfl

@[simp] theorem fixLedStripTimer_servo_protocol (b : BuildConfig) (env : ValEnv) (s : ConfigState) :
    (fixLedStripTimer b env s).servo_protocol = s.servo_protocol := by
  unfold fixLedStripTimer featureClear
  split <;> rfl

@[simp] theorem fixLedStripTimer_serialConfig (b : BuildConfig) (env : ValEnv) (s : ConfigState) :
    (fixLedStripTimer b env s).serialConfig = s.serialConfig := by
  unfold fixLedStripTimer featureClear
  split <;> rfl

@[simp] theorem fixLedStripTimer_land_slowdown_minalt (b : BuildConfig) (env : ValEnv) (s : ConfigState) :
    (fixLedStripTimer b env s).land_slowdown_minalt = s.land_slowdown_minalt := by
  unfold fixLedStripTimer featureClear
  split <;> rfl

@[simp] theorem fixLedStripTimer_land_slowdown_maxalt (b : BuildConfig) (env : ValEnv) (s : ConfigState) :
    (fixLedStripTimer b env s).land_slowdown_maxalt = s.land_slowdown_maxalt := by
  unfold fixLedStripTimer featureClear
  split <;> rfl

@[simp] theorem fixLedStripTimer_motorPwmProtocol (b : BuildConfig) (env : ValEnv) (s : ConfigState) :
    (fixLedStripTimer b env s).motorPwmProtocol = s.motorPwmProtocol := by
  unfold fixLedStripTimer featureClear
  split <;> rfl

@[simp] theorem fixLedStripTimer_motorPwmRate (b : BuildConfig) (env : ValEnv) (s : ConfigState) :
    (fixLedStripTimer b env s).motorPwmRate = s.motorPwmRate := by
  unfold fixLedStripTimer featureClear
  split <;> rfl

@[simp] theorem fixLedStripTimer_mag_align (b : BuildConfig) (env : ValEnv) (s : ConfigState) :
    (fixLedStripTimer b env s).mag_align = s.mag_align := by
  unfold fixLedStripTimer featureClear
  split <;> rfl

@[simp] theorem fixLedStripTimer_current_profile_index (b : BuildConfig) (env : ValEnv) (s : ConfigState) :
    (fixLedStripTimer b env s).current_profile_index = s.current_profile_index := by
  unfold fixLedStripTimer featureClear
  split <;> rfl

@[simp] theorem fixLedStripTimer_current_battery_profile_index (b : BuildConfig) (env : ValEnv) (s : ConfigState) :
    (fixLedStripTimer b env s).current_battery_profile_index = s.current_battery_profile_index := by
  unfold fixLedStripTimer featureClear
  split <;> rfl

@[simp] theorem fixLedStripTimer_rcmap (b : BuildConfig) (env : ValEnv) (s : ConfigState) :
    (fixLedStripTimer b env s).rcmap = s.rcmap := by
  unfold fixLedStripTimer featureClear
  split <;> rfl

@[simp] theorem fixServoProtocol_enabledFeatures (b : BuildConfig) (s : ConfigState) :
    (fixServoProtocol b s).enabledFeatures = s.enabledFeatures := by
  unfold fixServoProtocol
  split <;> rfl

@[simp] theorem fixServoProtocol_acc_notch_cutoff (b : BuildConfig) (s : ConfigState) :
    (fixServoProtocol b s).acc_notch_cutoff = s.acc_notch_cutoff := by
  unfold fixServoProtocol
  split <;> rfl

@[simp] theorem fixServoProtocol_acc_notch_hz (b : BuildConfig) (s : ConfigState) :
    (fixServoProtocol b s).acc_notch_hz = s.acc_notch_hz := by
  unfold fixServoProtocol
  split <;> rfl

@[simp] theorem fixServoProtocol_serialConfig (b : BuildConfig) (s : ConfigState) :
    (fixServoProtocol b s).serialConfig = s.serialConfig := by
  unfold fixServoProtocol
  split <;> rfl

@[simp] theorem fixServoProtocol_land_slowdown_minalt (b : BuildConfig) (s : ConfigState) :
    (fixServoProtocol b s).land_slowdown_minalt = s.land_slowdown_minalt := by
  unfold fixServoProtocol
  split <;> rfl

@[simp] theorem fixServoProtocol_land_slowdown_maxalt (b : BuildConfig) (s : ConfigState) :
    (fixServoProtocol b s).land_slowdown_maxalt = s.land_slowdown_maxalt := by
  unfold fixServoProtocol
  split <;> rfl

@[simp] theorem fixServoProtocol_motorPwmProtocol (b : BuildConfig) (s : ConfigState) :
    (fixServoProtocol b s).motorPwmProtocol = s.motorPwmProtocol := by
  unfold fixServoProtocol
  split <;> rfl

@[simp] theorem fixServoProtocol_motorPwmRate (b : BuildConfig) (s : ConfigState) :
    (fixServoProtocol b s).motorPwmRate = s.motorPwmRate := by
  unfold fixServoProtocol
  split <;> rfl

@[simp] theorem fixServoProtocol_mag_align (b : BuildConfig) (s : ConfigState) :
    (fixServoProtocol b s).mag_align = s.mag_align := by
  unfold fixServoProtocol
  split <;> rfl

@[simp] theorem fixServoProtocol_current_profile_index (b : BuildConfig) (s : ConfigState) :
    (fixServoProtocol b s).current_profile_index = s.current_profile_index := by
  unfold fixServoProtocol
  split <;> rfl

@[simp] theorem fixServoProtocol_current_battery_profile_index (b : BuildConfig) (s : ConfigState) :
    (fixServoProtocol b s).current_battery_profile_index = s.current_battery_profile_index := by
  unfold fixServoProtocol
  split <;> rfl

@[simp] theorem fixServoProtocol_rcmap (b : BuildConfig) (s : ConfigState) :
    (fixServoProtocol b s).rcmap = s.rcmap := by
  unfold fixServoProtocol
  split <;> rfl

@[simp] theorem fixSerialConfig_enabledFeatures (env : ValEnv) (s : ConfigState) :
    (fixSerialConfig env s).enabledFeatures = s.enabledFeatures := by
  unfold fixSerialConfig
  split <;> rfl

@[simp] theorem fixSerialConfig_acc_notch_cutoff (env : ValEnv) (s : ConfigState) :
    (fixSerialConfig env s).acc_notch_cutoff = s.acc_notch_cutoff := by
  unfold fixSerialConfig
  split <;> rfl

@[simp] theorem fixSerialConfig_acc_notch_hz (env : ValEnv) (s : ConfigState) :
    (fixSerialConfig env s).acc_notch_hz = s.acc_notch_hz := by
  unfold fixSerialConfig
  split <;> rfl

@[simp] theorem fixSerialConfig_servo_protocol (env : ValEnv) (s : ConfigState) :
    (fixSerialConfig env s).servo_protocol = s.servo_protocol := by
  unfold fixSerialConfig
  split <;> rfl

@[simp] theorem fixSerialConfig_land_slowdown_minalt (env : ValEnv) (s : ConfigState) :
    (fixSerialConfig env s).land_slowdown_minalt = s.land_slowdown_minalt := by
  unfold fixSerialConfig
  split <;> rfl

@[simp] theorem fixSerialConfig_land_slowdown_maxalt (env : ValEnv) (s : ConfigState) :
    (fixSerialConfig env s).land_slowdown_maxalt = s.land_slowdown_maxalt := by
  unfold fixSerialConfig
  split <;> rfl

@[simp] theorem fixSerialConfig_motorPwmProtocol (env : ValEnv) (s : ConfigState) :
    (fixSerialConfig env s).motorPwmProtocol = s.motorPwmProtocol := by
  unfold fixSerialConfig
  split <;> rfl

@[simp] theorem fixSerialConfig_motorPwmRate (env : ValEnv) (s : ConfigState) :
    (fixSerialConfig env s).motorPwmRate = s.motorPwmRate := by
  unfold fixSerialConfig
  split <;> rfl

@[simp] theorem fixSerialConfig_mag_align (env : ValEnv) (s : ConfigState) :
    (fixSerialConfig env s).mag_align = s.mag_align := by
  unfold fixSerialConfig
  split <;> rfl

@[simp] theorem fixSerialConfig_current_profile_index (env : ValEnv) (s : ConfigState) :
    (fixSerialConfig env s).current_profile_index = s.current_profile_index := by
  unfold fixSerialConfig
  split <;> rfl

@[simp] theorem fixSerialConfig_current_battery_profile_index (env : ValEnv) (s : ConfigState) :
    (fixSerialConfig env s).current_battery_profile_index = s.current_battery_profile_index := by
  unfold fixSerialConfig
  split <;> rfl

@[simp] theorem fixSerialConfig_rcmap (env : ValEnv) (s : ConfigState) :
    (fixSerialConfig env s).rcmap = s.rcmap := by
  unfold fixSerialConfig
  split <;> rfl

@[simp] theorem validateNavConfig_enabledFeatures (s : ConfigState) :
    (validateNavConfig s).enabledFeatures = s.enabledFeatures := rfl

@[simp] theorem validateNavConfig_acc_notch_cutoff (s : ConfigState) :
    (validateNavConfig s).acc_notch_cutoff = s.acc_notch_cutoff := rfl

@[simp] theorem validateNavConfig_acc_notch_hz (s : ConfigState) :
    (validateNavConfig s).acc_notch_hz = s.acc_notch_hz := rfl

@[simp] theorem validateNavConfig_servo_protocol (s : ConfigState) :
    (validateNavConfig s).servo_protocol = s.servo_protocol := rfl

@[simp] theorem validateNavConfig_serialConfig (s : ConfigState) :
    (validateNavConfig s).serialConfig = s.serialConfig := rfl

@[simp] theorem validateNavConfig_land_slowdown_maxalt (s : ConfigState) :
    (validateNavConfig s).land_slowdown_maxalt = s.land_slowdown_maxalt := rfl

@[simp] theorem validateNavConfig_motorPwmProtocol (s : ConfigState) :
    (validateNavConfig s).motorPwmProtocol = s.motorPwmProtocol := rfl

@[simp] theorem validateNavConfig_motorPwmRate (s : ConfigState) :
    (validateNavConfig s).motorPwmRate = s.motorPwmRate := rfl

@[simp] theorem validateNavConfig_mag_align (s : ConfigState) :
    (validateNavConfig s).mag_align = s.mag_align := rfl

@[simp] theorem validateNavConfig_current_profile_index (s : ConfigState) :
    (validateNavConfig s).current_profile_index = s.current_profile_index := rfl

@[simp] theorem validateNavConfig_current_battery_profile_index (s : ConfigState) :
    (validateNavConfig s).current_battery_profile_index = s.current_battery_profile_index := rfl

@[simp] theorem validateNavConfig_rcmap (s : ConfigState) :
    (validateNavConfig s).rcmap = s.rcmap := rfl

@[simp] theorem fixMotorProtocolNonDshot_enabledFeatures (b : BuildConfig) (s : ConfigState) :
    (fixMotorProtocolNonDshot b s).enabledFeatures = s.enabledFeatures := by
  unfold fixMotorProtocolNonDshot
  split <;> rfl

@[simp] theorem fixMotorProtocolNonDshot_acc_notch_cutoff (b : BuildConfig) (s : ConfigState) :
    (fixMotorProtocolNonDshot b s).acc_notch_cutoff = s.acc_notch_cutoff := by
  unfold fixMotorProtocolNonDshot
  split <;> rfl

@[simp] theorem fixMotorProtocolNonDshot_acc_notch_hz (b : BuildConfig) (s : ConfigState) :
    (fixMotorProtocolNonDshot b s).acc_notch_hz = s.acc_notch_hz := by
  unfold fixMotorProtocolNonDshot
  split <;> rfl

@[simp] theorem fixMotorProtocolNonDshot_servo_protocol (b : BuildConfig) (s : ConfigState) :
    (fixMotorProtocolNonDshot b s).servo_protocol = s.servo_protocol := by
  unfold fixMotorProtocolNonDshot
  split <;> rfl

@[simp] theorem fixMotorProtocolNonDshot_serialConfig (b : BuildConfig) (s : ConfigState) :
    (fixMotorProtocolNonDshot b s).serialConfig = s.serialConfig := by
  unfold fixMotorProtocolNonDshot
  split <;> rfl

@[simp] theorem fixMotorProtocolNonDshot_land_slowdown_minalt (b : BuildConfig) (s : ConfigState) :
    (fixMotorProtocolNonDshot b s).land_slowdown_minalt = s.land_slowdown_minalt := by
  unfold fixMotorProtocolNonDshot
  split <;> rfl

@[simp] theorem fixMotorProtocolNonDshot_land_slowdown_maxalt (b : BuildConfig) (s : ConfigState) :
    (fixMotorProtocolNonDshot b s).land_slowdown_maxalt = s.land_slowdown_maxalt := by
  unfold fixMotorProtocolNonDshot
  split <;> rfl

@[simp] theorem fixMotorProtocolNonDshot_motorPwmRate (b : BuildConfig) (s : ConfigState) :
    (fixMotorProtocolNonDshot b s).motorPwmRate = s.motorPwmRate := by
  unfold fixMotorProtocolNonDshot
  split <;> rfl

@[simp] theorem fixMotorProtocolNonDshot_mag_align (b : BuildConfig) (s : ConfigState) :
    (fixMotorProtocolNonDshot b s).mag_align = s.mag_align := by
  unfold fixMotorProtocolNonDshot
  split <;> rfl

@[simp] theorem fixMotorProtocolNonDshot_current_profile_index (b : BuildConfig) (s : ConfigState) :
    (fixMotorProtocolNonDshot b s).current_profile_index = s.current_profile_index := by
  unfold fixMotorProtocolNonDshot
  split <;> rfl

@[simp] theorem fixMotorProtocolNonDshot_current_battery_profile_index (b : BuildConfig) (s : ConfigState) :
    (fixMotorProtocolNonDshot b s).current_battery_profile_index = s.current_battery_profile_index := by
  unfold fixMotorProtocolNonDshot
  split <;> rfl

@[simp] theorem fixMotorProtocolNonDshot_rcmap (b : BuildConfig) (s : ConfigState) :
    (fixMotorProtocolNonDshot b s).rcmap = s.rcmap := by
  unfold fixMotorProtocolNonDshot
  split <;> rfl

@[simp] theorem fixMotorPwmRate_enabledFeatures (b : BuildConfig) (s : ConfigState) :
    (fixMotorPwmRate b s).enabledFeatures = s.enabledFeatures := by
  unfold fixMotorPwmRate
  split
  · rfl
  · split <;> rfl

@[simp] theorem fixMotorPwmRate_acc_notch_cutoff (b : BuildConfig) (s : ConfigState) :
    (fixMotorPwmRate b s).acc_notch_cutoff = s.acc_notch_cutoff := by
  unfold fixMotorPwmRate
  split
  · rfl
  · split <;> rfl

@[simp] theorem fixMotorPwmRate_acc_notch_hz (b : BuildConfig) (s : ConfigState) :
    (fixMotorPwmRate b s).acc_notch_hz = s.acc_notch_hz := by
  unfold fixMotorPwmRate
  split
  · rfl
  · split <;> rfl

@[simp] theorem fixMotorPwmRate_servo_protocol (b : BuildConfig) (s : ConfigState) :
    (fixMotorPwmRate b s).servo_protocol = s.servo_protocol := by
  unfold fixMotorPwmRate
  split
  · rfl
  · split <;> rfl

@[simp] theorem fixMotorPwmRate_serialConfig (b : BuildConfig) (s : ConfigState) :
    (fixMotorPwmRate b s).serialConfig = s.serialConfig := by
  unfold fixMotorPwmRate
  split
  · rfl
  · split <;> rfl

@[simp] theorem fixMotorPwmRate_land_slowdown_minalt (b : BuildConfig) (s : ConfigState) :
    (fixMotorPwmRate b s).land_slowdown_minalt = s.land_slowdown_minalt := by
  unfold fixMotorPwmRate
  split
  · rfl
  · split <;> rfl

@[simp] theorem fixMotorPwmRate_land_slowdown_maxalt (b : BuildConfig) (s : ConfigState) :
    (fixMotorPwmRate b s).land_slowdown_maxalt = s.land_slowdown_maxalt := by
  unfold fixMotorPwmRate
  split
  · rfl
  · split <;> rfl

@[simp] theorem fixMotorPwmRate_motorPwmProtocol (b : BuildConfig) (s : ConfigState) :
    (fixMotorPwmRate b s).motorPwmProtocol = s.motorPwmProtocol := by
  unfold fixMotorPwmRate
  split
  · rfl
  · split <;> rfl

@[simp] theorem fixMotorPwmRate_mag_align (b : BuildConfig) (s : ConfigState) :
    (fixMotorPwmRate b s).mag_align = s.mag_align := by
  unfold fixMotorPwmRate
  split
  · rfl
  · split <;> rfl

@[simp] theorem fixMotorPwmRate_current_profile_index (b : BuildConfig) (s : ConfigState) :
    (fixMotorPwmRate b s).current_profile_index = s.current_profile_index := by
  unfold fixMotorPwmRate
  split
  · rfl
  · split <;> rfl

@[simp] theorem fixMotorPwmRate_current_battery_profile_index (b : BuildConfig) (s : ConfigState) :
    (fixMotorPwmRate b s).current_battery_profile_index = s.current_battery_profile_index := by
  unfold fixMotorPwmRate
  split
  · rfl
  · split <;> rfl

@[simp] theorem fixMotorPwmRate_rcmap (b : BuildConfig) (s : ConfigState) :
    (fixMotorPwmRate b s).rcmap = s.rcmap := by
  unfold fixMotorPwmRate
  split
  · rfl
  · split <;> rfl

@[simp] theorem fixMagAlign_enabledFeatures (b : BuildConfig) (s : ConfigState) :
    (fixMagAlign b s).enabledFeatures = s.enabledFeatures := by
  unfold fixMagAlign
  split <;> rfl

@[simp] theorem fixMagAlign_acc_notch_cutoff (b : BuildConfig) (s : ConfigState) :
    (fixMagAlign b s).acc_notch_cutoff = s.acc_notch_cutoff := by
  unfold fixMagAlign
  split <;> rfl

@[simp] theorem fixMagAlign_acc_notch_hz (b : BuildConfig) (s : ConfigState) :
    (fixMagAlign b s).acc_notch_hz = s.acc_notch_hz := by
  unfold fixMagAlign
  split <;> rfl

@[simp] theorem fixMagAlign_servo_protocol (b : BuildConfig) (s : ConfigState) :
    (fixMagAlign b s).servo_protocol = s.servo_protocol := by
  unfold fixMagAlign
  split <;> rfl

@[simp] theorem fixMagAlign_serialConfig (b : BuildConfig) (s : ConfigState) :
    (fixMagAlign b s).serialConfig = s.serialConfig := by
  unfold fixMagAlign
  split <;> rfl

@[simp] theorem fixMagAlign_land_slowdown_minalt (b : BuildConfig) (s : ConfigState) :
    (fixMagAlign b s).land_slowdown_minalt = s.land_slowdown_minalt := by
  unfold fixMagAlign
  split <;> rfl

@[simp] theorem fixMagAlign_land_slowdown_maxalt (b : BuildConfig) (s : ConfigState) :
    (fixMagAlign b s).land_slowdown_maxalt = s.land_slowdown_maxalt := by
  unfold fixMagAlign
  split <;> rfl

@[simp] theorem fixMagAlign_motorPwmProtocol (b : BuildConfig) (s : ConfigState) :
    (fixMagAlign b s).motorPwmProtocol = s.motorPwmProtocol := by
  unfold fixMagAlign
  split <;> rfl

@[simp] theorem fixMagAlign_motorPwmRate (b : BuildConfig) (s : ConfigState) :
    (fixMagAlign b s).motorPwmRate = s.motorPwmRate := by
  unfold fixMagAlign
  split <;> rfl

@[simp] theorem fixMagAlign_current_profile_index (b : BuildConfig) (s : ConfigState) :
    (fixMagAlign b s).current_profile_index = s.current_profile_index := by
  unfold fixMagAlign
  split <;> rfl

@[simp] theorem fixMagAlign_current_battery_profile_index (b : BuildConfig) (s : ConfigState) :
    (fixMagAlign b s).current_battery_profile_index = s.current_battery_profile_index := by
  unfold fixMagAlign
  split <;> rfl

@[simp] theorem fixMagAlign_rcmap (b : BuildConfig) (s : ConfigState) :
    (fixMagAlign b s).rcmap = s.rcmap := by
  unfold fixMagAlign
  split <;> rfl
/-! Value lemmas: what each rule writes to its own field. -/

@[simp] theorem fixAccNotch_acc_notch_hz (s : ConfigState) :
    (fixAccNotch s).acc_notch_hz =
      if s.acc_notch_cutoff ≥ s.acc_notch_hz then 0 else s.acc_notch_hz := by
  unfold fixAccNotch
  split <;> rfl

@[simp] theorem featureClear_enabledFeatures (m : Nat) (s : ConfigState) :
    (featureClear m s).enabledFeatures = Nat.ldiff s.enabledFeatures m := rfl

@[simp] theorem featureSet_enabledFeatures (m : Nat) (s : ConfigState) :
    (featureSet m s).enabledFeatures = s.enabledFeatures ||| m := rfl

@[simp] theorem fixLedStripTimer_enabledFeatures (b : BuildConfig) (env : ValEnv)
    (s : ConfigState) :
    (fixLedStripTimer b env s).enabledFeatures =
      if b.useLedStrip && b.useSoftserial && featureConfigured s FEATURE_SOFTSERIAL &&
          featureConfigured s FEATURE_LED_STRIP && env.ledStripTimerShared then
        Nat.ldiff s.enabledFeatures FEATURE_LED_STRIP
      else s.enabledFeatures := by
  unfold fixLedStripTimer featureClear
  split <;> rfl

@[simp] theorem fixServoProtocol_servo_protocol (b : BuildConfig) (s : ConfigState) :
    (fixServoProtocol b s).servo_protocol =
      if ¬b.useServoSbus ∧ (s.servo_protocol = .SERVO_TYPE_SBUS ∨
          s.servo_protocol = .SERVO_TYPE_SBUS_PWM) then
        .SERVO_TYPE_PWM
      else s.servo_protocol := by
  unfold fixServoProtocol
  split <;> rfl

@[simp] theorem fixSerialConfig_serialConfig (env : ValEnv) (s : ConfigState) :
    (fixSerialConfig env s).serialConfig =
      if env.isSerialConfigValid s.serialConfig then s.serialConfig
      else env.serialDefault := by
  unfold fixSerialConfig
  split <;> rfl

@[simp] theorem validateNavConfig_land_slowdown_minalt (s : ConfigState) :
    (validateNavConfig s).land_slowdown_minalt =
      min s.land_slowdown_minalt (s.land_slowdown_maxalt - 100) := rfl

@[simp] theorem fixMotorProtocolNonDshot_motorPwmProtocol (b : BuildConfig)
    (s : ConfigState) :
    (fixMotorProtocolNonDshot b s).motorPwmProtocol =
      if ¬b.useDshot ∧ s.motorPwmProtocol.toNat >
          motorPwmProtocolTypes_e.PWM_TYPE_BRUSHED.toNat then
        .PWM_TYPE_MULTISHOT
      else s.motorPwmProtocol := by
  unfold fixMotorProtocolNonDshot
  split <;> rfl

@[simp] theorem fixMotorPwmRate_motorPwmRate (b : BuildConfig) (s : ConfigState) :
    (fixMotorPwmRate b s).motorPwmRate =
      if b.brushedMotors then constrain s.motorPwmRate 500 32000
      else
        match s.motorPwmProtocol with
        | .PWM_TYPE_STANDARD => min s.motorPwmRate 490
        | .PWM_TYPE_ONESHOT125 => min s.motorPwmRate 3900
        | .PWM_TYPE_MULTISHOT => constrain s.motorPwmRate 2000 16000
        | .PWM_TYPE_BRUSHED => constrain s.motorPwmRate 500 32000
        | .PWM_TYPE_DSHOT150 => min s.motorPwmRate 4000
        | .PWM_TYPE_DSHOT300 => min s.motorPwmRate 8000
        | .PWM_TYPE_DSHOT600 => min s.motorPwmRate 16000 := by
  unfold fixMotorPwmRate
  split
  · rfl
  · split <;> rfl

@[simp] theorem fixMagAlign_mag_align (b : BuildConfig) (s : ConfigState) :
    (fixMagAlign b s).mag_align =
      if b.useMag ∧ s.mag_align = ALIGN_DEFAULT then CW270_DEG_FLIP
      else s.mag_align := by
  unfold fixMagAlign
  split <;> rfl
/-! Bitwise helper lemmas for the idempotence proof. -/

theorem ldiff_ldiff_self (x m : Nat) :
    Nat.ldiff (Nat.ldiff x m) m = Nat.ldiff x m := by
  refine Nat.eq_of_testBit_eq fun i => ?_
  cases h : Nat.testBit m i <;> simp [Nat.testBit_ldiff, h]

theorem ldiff_ldiff_left_absorb (x a u : Nat) :
    Nat.ldiff (Nat.ldiff (Nat.ldiff x u) a) u = Nat.ldiff (Nat.ldiff x u) a := by
  refine Nat.eq_of_testBit_eq fun i => ?_
  cases h : Nat.testBit u i <;> simp [Nat.testBit_ldiff, h]

theorem ldiff_and_self (x m : Nat) : Nat.ldiff x m &&& m = 0 := by
  refine Nat.eq_of_testBit_eq fun i => ?_
  cases h : Nat.testBit m i <;>
    simp [Nat.testBit_ldiff, Nat.testBit_land, Nat.zero_testBit, h]

theorem or_or_self (x m : Nat) : (x ||| m) ||| m = x ||| m := by
  refine Nat.eq_of_testBit_eq fun i => ?_
  cases h : Nat.testBit m i <;> simp [Nat.testBit_lor, h]

theorem constrain_idem (r lo hi : Nat) (h : lo ≤ hi) :
    constrain (constrain r lo hi) lo hi = constrain r lo hi := by
  unfold constrain
  split_ifs <;> omega

theorem updateInvalidSettingFlag_idem (env : ValEnv) (s : ConfigState) (f : Nat) :
    updateInvalidSettingFlag env s (updateInvalidSettingFlag env s f) =
      updateInvalidSettingFlag env s f := by
  unfold updateInvalidSettingFlag
  split_ifs
  · exact ldiff_ldiff_self f ARMING_DISABLED_INVALID_SETTING
  · exact or_or_self f ARMING_DISABLED_INVALID_SETTING

theorem validateAndFixConfig_snd (b : BuildConfig) (env : ValEnv)
    (s : ConfigState) (f : Nat) :
    (validateAndFixConfig b env s f).2 =
      updateInvalidSettingFlag env (validateAndFixConfig b env s f).1 f := by
  simp [validateAndFixConfig]

theorem validateAndFixConfig_fst_config_idem (b : BuildConfig) (env : ValEnv)
    (s : ConfigState) (f g : Nat) :
    (validateAndFixConfig b env (validateAndFixConfig b env s f).1 g).1 =
      (validateAndFixConfig b env s f).1 := by
  ext
  case enabledFeatures =>
    simp only [validateAndFixConfig]
    simp only [fixMagAlign_enabledFeatures, fixMotorPwmRate_enabledFeatures,
      fixMotorProtocolNonDshot_enabledFeatures, validateNavConfig_enabledFeatures,
      fixSerialConfig_enabledFeatures, fixServoProtocol_enabledFeatures,
      fixLedStripTimer_enabledFeatures, featureClear_enabledFeatures,
      fixAccNotch_enabledFeatures, featureConfigured]
    by_cases hg : (b.useLedStrip && b.useSoftserial &&
        (Nat.ldiff s.enabledFeatures featureUnusedMask &&& FEATURE_SOFTSERIAL != 0) &&
        (Nat.ldiff s.enabledFeatures featureUnusedMask &&& FEATURE_LED_STRIP != 0) &&
        env.ledStripTimerShared) = true
    · simp only [hg, if_true, ldiff_ldiff_left_absorb, ldiff_and_self]
      try simp
    · simp only [hg, if_false, Bool.false_eq_true, ldiff_ldiff_self]
  case acc_notch_cutoff => simp [validateAndFixConfig]
  case acc_notch_hz =>
    simp only [validateAndFixConfig]
    simp
    split_ifs <;> omega
  case servo_protocol =>
    simp only [validateAndFixConfig]
    simp
    try split_ifs <;> simp_all
  case serialConfig =>
    simp only [validateAndFixConfig]
    simp
    try split_ifs <;> simp_all
  case land_slowdown_minalt =>
    simp only [validateAndFixConfig]
    simp
    try omega
  case land_slowdown_maxalt => simp [validateAndFixConfig]
  case motorPwmProtocol =>
    simp only [validateAndFixConfig]
    simp
    split_ifs <;> simp_all [motorPwmProtocolTypes_e.toNat]
  case motorPwmRate =>
    simp only [validateAndFixConfig]
    simp
    by_cases hbr : b.brushedMotors = true
    · simp only [hbr, if_true]
      exact constrain_idem _ _ _ (by omega)
    · simp only [hbr, Bool.false_eq_true, if_false]
      cases hp : s.motorPwmProtocol <;>
        by_cases hd : b.useDshot = true <;>
          simp_all [motorPwmProtocolTypes_e.toNat, constrain] <;> split_ifs <;> omega
  case mag_align =>
    simp only [validateAndFixConfig]
    simp
    split_ifs <;> simp_all [ALIGN_DEFAULT, CW270_DEG_FLIP]
  case current_profile_index => simp [validateAndFixConfig]
  case current_battery_profile_index => simp [validateAndFixConfig]
  case rcmap => simp [validateAndFixConfig]
/-- C2: the validator is idempotent: applied to its own output (both the
fixed configuration snapshot and the updated arming flags) it changes
nothing, for every build, every environment and every input snapshot. -/
theorem validateAndFixConfig_idempotent (b : BuildConfig) (env : ValEnv)
    (s : ConfigState) (f : Nat) :
    validateAndFixConfig b env (validateAndFixConfig b env s f).1
        (validateAndFixConfig b env s f).2 =
      validateAndFixConfig b env s f := by
  have hcfg := validateAndFixConfig_fst_config_idem b env s f
    (validateAndFixConfig b env s f).2
  ext : 1
  · exact hcfg
  · rw [validateAndFixConfig_snd, hcfg, validateAndFixConfig_snd,
      updateInvalidSettingFlag_idem]
/-- C5: after the validator runs, the landing lower altitude threshold
is at most the upper threshold minus the fixed margin 100; the rule only
ever lowers the lower threshold and never touches the upper one. -/
theorem validator_orders_landing_thresholds (b : BuildConfig) (env : ValEnv)
    (s : ConfigState) (f : Nat) :
    (validateAndFixConfig b env s f).1.land_slowdown_minalt ≤
      (validateAndFixConfig b env s f).1.land_slowdown_maxalt - 100 ∧
    (validateAndFixConfig b env s f).1.land_slowdown_maxalt =
      s.land_slowdown_maxalt ∧
    (validateAndFixConfig b env s f).1.land_slowdown_minalt ≤
      s.land_slowdown_minalt := by
  simp [validateAndFixConfig]
  try omega
/-- C6: with brushed motors off and DSHOT compiled in, the validator
clamps `motorPwmRate` to the band of the selected protocol, inclusively
at both ends: STANDARD ≤ 490, ONESHOT125 ≤ 3900, MULTISHOT ∈
[2000, 16000], BRUSHED ∈ [500, 32000], DSHOT150 ≤ 4000,
DSHOT300 ≤ 8000, DSHOT600 ≤ 16000. -/
theorem validator_clamps_motor_rate (b : BuildConfig) (env : ValEnv)
    (s : ConfigState) (f : Nat)
    (hbr : b.brushedMotors = false) (hd : b.useDshot = true) :
    (validateAndFixConfig b env s f).1.motorPwmRate =
      match s.motorPwmProtocol with
      | .PWM_TYPE_STANDARD => min s.motorPwmRate 490
      | .PWM_TYPE_ONESHOT125 => min s.motorPwmRate 3900
      | .PWM_TYPE_MULTISHOT => min (max s.motorPwmRate 2000) 16000
      | .PWM_TYPE_BRUSHED => min (max s.motorPwmRate 500) 32000
      | .PWM_TYPE_DSHOT150 => min s.motorPwmRate 4000
      | .PWM_TYPE_DSHOT300 => min s.motorPwmRate 8000
      | .PWM_TYPE_DSHOT600 => min s.motorPwmRate 16000 := by
  simp [validateAndFixConfig, hbr, hd]
  cases hp : s.motorPwmProtocol <;>
    simp [hp, constrain] <;> split_ifs <;> omega
/-- Witness for C6: a rate of 50000 under DSHOT600 comes out at the
16000 ceiling. -/
theorem validator_clamps_motor_rate_witness :
    fullFeatureBuild.brushedMotors = false ∧ fullFeatureBuild.useDshot = true ∧
    (validateAndFixConfig fullFeatureBuild testValEnv dshotTestConfig 0).1.motorPwmRate =
      16000 := by
  refine ⟨rfl, rfl, ?_⟩
  rw [validator_clamps_motor_rate fullFeatureBuild testValEnv dshotTestConfig 0 rfl rfl]
  decide
/-- C7: a failed integrity check triggers a full reset to defaults
(every group of every profile slot plus default creation), a fresh
valid image, and profile 0 active; a passing check changes nothing. -/
theorem ensureEEPROMContainsValidData_spec (b : BuildConfig) (st : FcState) :
    (st.eepromValid = true → ensureEEPROMContainsValidData b st = st) ∧
    (st.eepromValid = false →
      ensureEEPROMContainsValidData b st =
        { st with
            config := factoryResetConfig b,
            pgActiveProfile := 0,
            controlRateProfile := 0,
            eepromImage := factoryResetConfig b,
            eepromValid := true,
            eepromWriteCount := st.eepromWriteCount + 1 } ∧
      (ensureEEPROMContainsValidData b st).config.current_profile_index = 0) := by
  constructor
  · intro h
    simp [ensureEEPROMContainsValidData, h]
  · intro h
    have hmain : ensureEEPROMContainsValidData b st =
        { st with
            config := factoryResetConfig b,
            pgActiveProfile := 0,
            controlRateProfile := 0,
            eepromImage := factoryResetConfig b,
            eepromValid := true,
            eepromWriteCount := st.eepromWriteCount + 1 } := by
      simp only [ensureEEPROMContainsValidData, h, Bool.false_eq_true, if_false,
        resetEEPROM, resetConfigs, pgResetAll, pgActivateProfile,
        createDefaultConfig, getConfigProfile, setConfigProfile, writeEEPROM,
        featureSet, factoryResetConfig, defaultConfigState, MAX_PROFILE_COUNT]
      split_ifs <;> rfl
    refine ⟨hmain, ?_⟩
    rw [hmain]
    rfl
/-- Witness for C7 at both a valid and an invalid boot state. -/
theorem ensureEEPROMContainsValidData_spec_witness :
    ensureEEPROMContainsValidData fullFeatureBuild bootStateValid = bootStateValid ∧
    (ensureEEPROMContainsValidData fullFeatureBuild
        bootStateInvalid).config.current_profile_index = 0 ∧
    (ensureEEPROMContainsValidData fullFeatureBuild bootStateInvalid).eepromValid =
      true := by
  refine ⟨(ensureEEPROMContainsValidData_spec fullFeatureBuild bootStateValid).1 rfl,
    ((ensureEEPROMContainsValidData_spec fullFeatureBuild bootStateInvalid).2 rfl).2,
    ?_⟩
  rw [((ensureEEPROMContainsValidData_spec fullFeatureBuild bootStateInvalid).2 rfl).1]
/-- C1 evaluated at the failing input: with the current profile index 0,
`setConfigProfile(MAX_PROFILE_COUNT)` produces exactly the same state as
`setConfigProfile(0)` (both activate profile 0), but it returns `true`
where `setConfigProfile(0)` returns `false`, because the changed-test
compares the raw index before the clamp; consequently
`setConfigProfileAndWriteEEPROM` performs a save+reload for the
out-of-range request and none for the request of 0. -/
theorem setConfigProfile_out_of_range_divergence :
    (setConfigProfile MAX_PROFILE_COUNT bootStateValid).2 =
      (setConfigProfile 0 bootStateValid).2 ∧
    (setConfigProfile MAX_PROFILE_COUNT bootStateValid).1 = true ∧
    (setConfigProfile 0 bootStateValid).1 = false ∧
    (setConfigProfileAndWriteEEPROM fullFeatureBuild testValEnv MAX_PROFILE_COUNT
        bootStateValid).eepromWriteCount = 1 ∧
    (setConfigProfileAndWriteEEPROM fullFeatureBuild testValEnv 0
        bootStateValid).eepromWriteCount = 0 := by
  refine ⟨by decide, by decide, by decide, by decide, by decide⟩

end Inav
